import Mathlib

/-!
# Filament sensor facade, sensor events and the printing screen state machine

A shallow embedding of

* `src/common/filament_sensors_handler.hpp` (class `FilamentSensors`),
* `src/common/filament_sensor.hpp` (class `IFSensor`),
* `src/gui/screen_printing.cpp` (`screen_printing_data_t`),

followed by the theorems about them.  Atomic fields are plain fields: every
member function modelled here is a single atomic access or is called from one
thread, so a call is one step on the state.  `uint8_t` counters are natural
numbers reduced modulo `256` where the code can overflow.
-/

namespace Buddy

/-! ## Filament sensor states -/

/-- Modelled from the spec: `filament_sensor_states.hpp` is not part of the
excerpt.  The enumerators are the states of the data model (NotInitialized,
HasFilament, NoFilament, NotConnected, Disabled) together with the
"uncalibrated" state of the error taxonomy, which the documentation of
`has_filament` ("disabled, not callibrated, disconnected and such") names too. -/
inductive FilamentSensorState where
  | NotInitialized
  | NotCalibrated
  | HasFilament
  | NoFilament
  | NotConnected
  | Disabled
  deriving DecidableEq, Repr

/-- Modelled from the spec: `filament_sensor_types.hpp` is not part of the
excerpt.  A logical sensor is an enumerated identity: `current_extruder` (the
one `has_filament` reads), `current_side`, and per-tool slots. -/
inductive LogicalFilamentSensor where
  | current_extruder
  | current_side
  | tool_slot (tool : Nat)
  deriving DecidableEq, Repr

/-- The members of `FilamentSensors` that the modelled member functions touch.
`logical_sensor_states_` is the cached table indexed by logical sensor;
`event_lock`, `autoload_lock` and `tool_index` are `uint8_t`. -/
structure FilamentSensors where
  logical_sensor_states_ : LogicalFilamentSensor → FilamentSensorState
  event_lock : Nat
  autoload_lock : Nat
  enable_state_update_pending : Bool
  enable_state_update_processing : Bool
  tool_index : Nat
  m600_sent : Bool
  autoload_sent : Bool
  has_mmu : Bool

namespace FilamentSensors

/-- Embeds `is_enable_state_update_processing()`. -/
def is_enable_state_update_processing (fs : FilamentSensors) : Bool :=
  fs.enable_state_update_pending || fs.enable_state_update_processing

/-- Embeds `WasM600_send()`. -/
def WasM600_send (fs : FilamentSensors) : Bool := fs.m600_sent

/-- Embeds `ClrM600Sent()`. -/
def ClrM600Sent (fs : FilamentSensors) : FilamentSensors :=
  { fs with m600_sent := false }

/-- Embeds `ClrAutoloadSent()`. -/
def ClrAutoloadSent (fs : FilamentSensors) : FilamentSensors :=
  { fs with autoload_sent := false }

/-- Embeds `IsAutoloadInProgress()`. -/
def IsAutoloadInProgress (fs : FilamentSensors) : Bool := fs.autoload_sent

/-- Embeds `sensor_state(sensor)`. -/
def sensor_state (fs : FilamentSensors) (sensor : LogicalFilamentSensor) :
    FilamentSensorState :=
  fs.logical_sensor_states_ sensor

/-- Embeds `has_filament(should_have_filament)`. -/
def has_filament (fs : FilamentSensors) (should_have_filament : Bool) : Bool :=
  decide (fs.logical_sensor_states_ LogicalFilamentSensor.current_extruder
    = (if should_have_filament then FilamentSensorState.HasFilament
       else FilamentSensorState.NoFilament))

/-- Embeds `isEvLocked()`. -/
def isEvLocked (fs : FilamentSensors) : Bool := decide (fs.event_lock > 0)

/-- Embeds `isAutoloadLocked()`. -/
def isAutoloadLocked (fs : FilamentSensors) : Bool := decide (fs.autoload_lock > 0)

/-- Modelled from the spec: `IncEvLock` is only declared in the header.  It is
an atomic increment (fetch-add) of the `uint8_t` counter `event_lock`. -/
def IncEvLock (fs : FilamentSensors) : FilamentSensors :=
  { fs with event_lock := (fs.event_lock + 1) % 256 }

/-- Modelled from the spec: `DecEvLock` is only declared in the header.  It is
an atomic decrement of `event_lock`, "asserted never to go negative": at
counter `0` the assertion fires and the call does not complete (`none`). -/
def DecEvLock (fs : FilamentSensors) : Option FilamentSensors :=
  if fs.event_lock > 0 then some { fs with event_lock := fs.event_lock - 1 } else none

/-- Modelled from the spec: `IncAutoloadLock` is only declared in the header.
Atomic increment of the `uint8_t` counter `autoload_lock`. -/
def IncAutoloadLock (fs : FilamentSensors) : FilamentSensors :=
  { fs with autoload_lock := (fs.autoload_lock + 1) % 256 }

/-- Modelled from the spec: `DecAutoloadLock` is only declared in the header.
Atomic decrement of `autoload_lock`, asserted never to go negative. -/
def DecAutoloadLock (fs : FilamentSensors) : Option FilamentSensors :=
  if fs.autoload_lock > 0 then some { fs with autoload_lock := fs.autoload_lock - 1 }
  else none

end FilamentSensors

/-- One call of the reference-counting interface of the facade. -/
inductive LockCall where
  | IncEvLock
  | DecEvLock
  | IncAutoloadLock
  | DecAutoloadLock
  deriving DecidableEq, Repr

/-- Performs one call; `none` when its assertion fires. -/
def LockCall.perform : LockCall → FilamentSensors → Option FilamentSensors
  | .IncEvLock, fs => some fs.IncEvLock
  | .DecEvLock, fs => fs.DecEvLock
  | .IncAutoloadLock, fs => some fs.IncAutoloadLock
  | .DecAutoloadLock, fs => fs.DecAutoloadLock

/-- Runs the calls in the order in which they take effect (each call is
atomic, so an interleaving of the callers is such a sequence).  Returns the
facade reached and the calls that completed: a failed assertion halts the
firmware, so no later call completes. -/
def runLockCalls : FilamentSensors → List LockCall → FilamentSensors × List LockCall
  | fs, [] => (fs, [])
  | fs, c :: cs =>
    match c.perform fs with
    | none => (fs, [])
    | some fs' => ((runLockCalls fs' cs).1, c :: (runLockCalls fs' cs).2)

/-- Number of `IncEvLock` calls in a sequence. -/
def incEvCount (cs : List LockCall) : Nat := cs.count LockCall.IncEvLock

/-- Number of `DecEvLock` calls in a sequence. -/
def decEvCount (cs : List LockCall) : Nat := cs.count LockCall.DecEvLock

/-- Number of `IncAutoloadLock` calls in a sequence. -/
def incAutoloadCount (cs : List LockCall) : Nat := cs.count LockCall.IncAutoloadLock

/-- Number of `DecAutoloadLock` calls in a sequence. -/
def decAutoloadCount (cs : List LockCall) : Nat := cs.count LockCall.DecAutoloadLock

/-- A facade with both counters at zero and nothing latched, as after
construction (`tool_index = uint8_t(-1)`). -/
def unlockedFacade : FilamentSensors where
  logical_sensor_states_ := fun _ => FilamentSensorState.NotInitialized
  event_lock := 0
  autoload_lock := 0
  enable_state_update_pending := false
  enable_state_update_processing := false
  tool_index := 255
  m600_sent := false
  autoload_sent := false
  has_mmu := false

/-- Two event holders and one autoload holder come and go, then one
`DecEvLock` too many. -/
def nestedCalls : List LockCall :=
  [LockCall.IncEvLock, LockCall.IncAutoloadLock, LockCall.IncEvLock, LockCall.DecEvLock,
   LockCall.DecAutoloadLock, LockCall.DecEvLock, LockCall.DecEvLock]

/-- A facade with two event holders and nothing else. -/
def twoEventHolders : FilamentSensors :=
  { unlockedFacade with event_lock := 2 }

/-- A facade with two event holders that differs from `twoEventHolders` in
every other member. -/
def twoEventHoldersBusy : FilamentSensors where
  logical_sensor_states_ := fun _ => FilamentSensorState.HasFilament
  event_lock := 2
  autoload_lock := 0
  enable_state_update_pending := true
  enable_state_update_processing := true
  tool_index := 1
  m600_sent := true
  autoload_sent := true
  has_mmu := true

/-! ## Sensor events -/

/-- The members `last_evaluated_state` and `state` of `IFSensor`. -/
structure IFSensor where
  last_evaluated_state : FilamentSensorState
  state : FilamentSensorState
  deriving DecidableEq, Repr

namespace IFSensor

/-- Embeds `IFSensor::event`. -/
inductive event where
  | NoFilament
  | HasFilament
  | EdgeFilamentInserted
  | EdgeFilamentRemoved
  deriving DecidableEq, Repr

/-- Embeds `Get()`. -/
def Get (s : IFSensor) : FilamentSensorState := s.state

/-- Modelled from the spec: `GenerateEvent` is only declared in the header.
The event is computed from the transition `(last_evaluated_state, state)`:
an edge for a change between NoFilament and HasFilament, otherwise the level
event of the current state; the call remembers `state` as last evaluated. -/
def GenerateEvent (s : IFSensor) : event × IFSensor :=
  let previous_state := s.last_evaluated_state
  let s' : IFSensor := { s with last_evaluated_state := s.state }
  match previous_state, s.state with
  | .NoFilament, .HasFilament => (event.EdgeFilamentInserted, s')
  | .HasFilament, .NoFilament => (event.EdgeFilamentRemoved, s')
  | _, .HasFilament => (event.HasFilament, s')
  | _, _ => (event.NoFilament, s')

/-- An edge event, as opposed to a level event. -/
def event.isEdge : event → Bool
  | .EdgeFilamentInserted => true
  | .EdgeFilamentRemoved => true
  | _ => false

/-- A transition of the visible state between NoFilament and HasFilament. -/
def isTransition : FilamentSensorState → FilamentSensorState → Bool
  | .NoFilament, .HasFilament => true
  | .HasFilament, .NoFilament => true
  | _, _ => false

/-- One cycle per element: the sensor's visible state becomes the element,
then `GenerateEvent` is called once.  Returns the events in order. -/
def runCycles : IFSensor → List FilamentSensorState → List event
  | _, [] => []
  | s, st :: sts =>
    let r := GenerateEvent { s with state := st }
    r.1 :: runCycles r.2 sts

/-- Number of NoFilament/HasFilament transitions along a sequence of visible
states, starting from `prev`. -/
def countTransitions : FilamentSensorState → List FilamentSensorState → Nat
  | _, [] => 0
  | prev, st :: sts => (if isTransition prev st then 1 else 0) + countTransitions st sts

/-- Number of edge events in a list of events. -/
def countEdges (es : List event) : Nat := (es.filter event.isEdge).length

end IFSensor

/-- A facade whose current extruder sensor is not connected while the side
sensor reports filament. -/
def notConnectedFacade : FilamentSensors :=
  { unlockedFacade with
    logical_sensor_states_ := fun l =>
      match l with
      | .current_extruder => FilamentSensorState.NotConnected
      | _ => FilamentSensorState.HasFilament }

/-! ## Bed preheat collaborator -/

/-- The members of `BedPreheat` used by `bed_preheat.cpp`; `heating_start_time`
is a `std::optional` of a `millis()` timestamp. -/
structure BedPreheat where
  heating_start_time : Option Nat
  can_preheat : Bool
  preheated : Bool
  waiting : Bool
  last_enabled_bedlets : Nat
  deriving DecidableEq, Repr

/-- Embeds `BedPreheat::is_waiting()`. -/
def BedPreheat.is_waiting (b : BedPreheat) : Bool := b.waiting

/-! ## Printing screen -/

/-- Print states of the engine, `marlin_vars()->print_state`.  The enum is
declared outside the excerpt; its enumerators are the case labels of the
switch in `change_print_state`, which has no default branch. -/
inductive marlin_print_state_t where
  | mpsIdle
  | mpsWaitGui
  | mpsPrintPreviewInit
  | mpsPrintPreviewImage
  | mpsPrintPreviewQuestions
  | mpsPrintInit
  | mpsPrinting
  | mpsPowerPanic_AwaitingResume
  | mpsPaused
  | mpsPausing_Begin
  | mpsPausing_Failed_Code
  | mpsPausing_WaitIdle
  | mpsPausing_ParkHead
  | mpsResuming_Reheating
  | mpsResuming_Begin
  | mpsResuming_UnparkHead_XY
  | mpsResuming_UnparkHead_ZE
  | mpsCrashRecovery_Begin
  | mpsCrashRecovery_Retracting
  | mpsCrashRecovery_Lifting
  | mpsCrashRecovery_XY_Measure
  | mpsCrashRecovery_Tool_Pickup
  | mpsCrashRecovery_XY_HOME
  | mpsCrashRecovery_Axis_NOK
  | mpsCrashRecovery_Repeated_Crash
  | mpsPowerPanic_Resume
  | mpsAborting_Begin
  | mpsAborting_WaitIdle
  | mpsAborting_ParkHead
  | mpsFinishing_WaitIdle
  | mpsFinishing_ParkHead
  | mpsAborted
  | mpsFinished
  | mpsExit
  | mpsPowerPanic_acFault
  deriving DecidableEq, Repr

/-- States of the printing screen.  The enum is declared outside the excerpt;
its enumerators are the case labels of the switch in
`set_pause_icon_and_label`, which has no default branch. -/
inductive printing_state_t where
  | COUNT
  | INITIAL
  | PRINTING
  | MBL_FAILED
  | ABSORBING_HEAT
  | PAUSING
  | PAUSED
  | RESUMING
  | REHEATING
  | REHEATING_DONE
  | STOPPED
  | PRINTED
  | ABORTING
  deriving DecidableEq, Repr

/-- The inputs `change_print_state` reads from `marlin_vars()`. -/
structure marlin_vars_t where
  print_state : marlin_print_state_t
  media_inserted : Bool
  deriving DecidableEq, Repr

/-- Embeds `enum class Btn`. -/
inductive Btn where
  | Tune
  | Pause
  | Stop
  deriving DecidableEq, Repr

/-- Icons named by `btn_res`. -/
inductive png where
  | settings_58x58
  | pause_58x58
  | stop_58x58
  | resume_48x48
  | reprint_48x48
  | home_58x58
  deriving DecidableEq, Repr

/-- Rows of `btn_res`.  The enum is declared outside the excerpt; its
enumerators are the ones the code names, in the order of the rows of the
table (the row of `reheating` carries the comment "reheating is same as
resume, but disabled"). -/
inductive item_id_t where
  | settings
  | pause
  | pausing
  | stop
  | resume
  | resuming
  | reheating
  | reprint
  | home
  | skip
  deriving DecidableEq, Repr

/-- The table `btn_res`: label and icon of each item. -/
def btn_res : item_id_t → String × png
  | .settings => ("Tune", png.settings_58x58)
  | .pause => ("Pause", png.pause_58x58)
  | .pausing => ("Pausing...", png.pause_58x58)
  | .stop => ("Stop", png.stop_58x58)
  | .resume => ("Resume", png.resume_48x48)
  | .resuming => ("Resuming...", png.resume_48x48)
  | .reheating => ("Heating...", png.resume_48x48)
  | .reprint => ("Reprint", png.reprint_48x48)
  | .home => ("Home", png.home_58x58)
  | .skip => ("Skip", png.resume_48x48)

/-- Modelled from the spec: the GUI library is not part of the excerpt.  Of a
button's icon window the model keeps what makes up its affordance projection
(the icon shown and the enablement) and what the calls made by
`screen_printing.cpp` name: the shadow flag (`Shadow`, `Unshadow`,
`IsShadowed`), the enabled flag (`Enable`, `Disable`: "can be focused",
"can't be focused") and the request to redraw (`Invalidate`). -/
structure window_icon_t where
  res : png
  shadowed : Bool
  enabled : Bool
  invalid : Bool
  deriving DecidableEq, Repr

namespace window_icon_t

/-- Embeds `SetRes(res)`. -/
def SetRes (w : window_icon_t) (r : png) : window_icon_t := { w with res := r }

/-- Embeds `IsShadowed()`. -/
def IsShadowed (w : window_icon_t) : Bool := w.shadowed

/-- Embeds `Shadow()`. -/
def Shadow (w : window_icon_t) : window_icon_t := { w with shadowed := true }

/-- Embeds `Unshadow()`. -/
def Unshadow (w : window_icon_t) : window_icon_t := { w with shadowed := false }

/-- Embeds `Enable()`: the window can be focused. -/
def Enable (w : window_icon_t) : window_icon_t := { w with enabled := true }

/-- Embeds `Disable()`: the window can't be focused. -/
def Disable (w : window_icon_t) : window_icon_t := { w with enabled := false }

/-- Embeds `Invalidate()`: the window is to be redrawn. -/
def Invalidate (w : window_icon_t) : window_icon_t := { w with invalid := true }

end window_icon_t

/-- Modelled from the spec: the GUI library is not part of the excerpt.  A
label window, of which the model keeps the text shown. -/
structure window_text_t where
  text : String
  deriving DecidableEq, Repr

/-- Embeds `SetText(txt)`. -/
def window_text_t.SetText (w : window_text_t) (t : String) : window_text_t :=
  { w with text := t }

/-- A button of the screen: the icon window `ico` and the label `txt`. -/
structure Button where
  ico : window_icon_t
  txt : window_text_t
  deriving DecidableEq, Repr

/-- Calls that leave the screen object. -/
inductive Effect where
  | print_progress_Pause
  | print_progress_Resume
  | Odometer_force_to_eeprom
  deriving DecidableEq, Repr

/-- The preprocessor conditions that guard code in `change_print_state`:
`defined(USE_ILI9488)` and `PRINTER_TYPE == PRINTER_PRUSA_IXL`. -/
structure BuildOptions where
  USE_ILI9488 : Bool
  PRINTER_PRUSA_IXL : Bool
  deriving DecidableEq, Repr

/-- The members of `screen_printing_data_t` that `change_print_state` and the
button functions touch.  `focused` is the button holding the GUI focus, if one
of the three does; `effects` records the calls that leave the screen, latest
first. -/
structure screen_printing_data_t where
  stop_pressed : Bool
  waiting_for_abort : Bool
  state__readonly__use_change_print_state : printing_state_t
  btn_tune : Button
  btn_pause : Button
  btn_stop : Button
  focused : Option Btn
  effects : List Effect
  deriving DecidableEq, Repr

namespace screen_printing_data_t

/-- Embeds `invalidate_print_state()`. -/
def invalidate_print_state (scr : screen_printing_data_t) : screen_printing_data_t :=
  { scr with state__readonly__use_change_print_state := printing_state_t.COUNT }

/-- Embeds `GetState()`. -/
def GetState (scr : screen_printing_data_t) : printing_state_t :=
  scr.state__readonly__use_change_print_state

/-- Modelled from the spec: the GUI library is not part of the excerpt.
`btn_tune.ico.IsFocused()`: the tune button holds the focus. -/
def tune_IsFocused (scr : screen_printing_data_t) : Bool :=
  decide (scr.focused = some Btn.Tune)

/-- Modelled from the spec: the GUI library is not part of the excerpt.
`btn_pause.ico.SetFocus()`: the pause button takes the focus if it can be
focused, that is, if it is enabled. -/
def pause_SetFocus (scr : screen_printing_data_t) : screen_printing_data_t :=
  if scr.btn_pause.ico.enabled then { scr with focused := some Btn.Pause } else scr

/-- Embeds `disable_tune_button()`. -/
def disable_tune_button (scr : screen_printing_data_t) : screen_printing_data_t :=
  let scr1 := { scr with btn_tune := { scr.btn_tune with ico := scr.btn_tune.ico.Shadow.Disable } }
  let scr2 := if scr1.tune_IsFocused then scr1.pause_SetFocus else scr1
  { scr2 with btn_tune := { scr2.btn_tune with ico := scr2.btn_tune.ico.Invalidate } }

/-- Embeds `enable_tune_button()`. -/
def enable_tune_button (scr : screen_printing_data_t) : screen_printing_data_t :=
  { scr with
    btn_tune := { scr.btn_tune with ico := scr.btn_tune.ico.Unshadow.Enable.Invalidate } }

/-- Embeds `set_icon_and_label(id_to_set, p_button, lbl)`, with `p_button` and `lbl`
the two windows of one button. -/
def set_icon_and_label (id_to_set : item_id_t) (b : Button) : Button :=
  { ico := b.ico.SetRes (btn_res id_to_set).2, txt := b.txt.SetText (btn_res id_to_set).1 }

/-- Embeds `enable_button(p_button)`. -/
def enable_button (b : Button) : Button :=
  if b.ico.IsShadowed then { b with ico := b.ico.Unshadow.Enable.Invalidate } else b

/-- Embeds `disable_button(p_button)`. -/
def disable_button (b : Button) : Button :=
  if !b.ico.IsShadowed then { b with ico := b.ico.Shadow.Disable.Invalidate } else b

/-- Embeds `set_pause_icon_and_label()`; `media_inserted` is
`marlin_vars()->media_inserted`. -/
def set_pause_icon_and_label (media_inserted : Bool) (scr : screen_printing_data_t) :
    screen_printing_data_t :=
  let b := scr.btn_pause
  match scr.GetState with
  | .COUNT | .INITIAL | .PRINTING | .MBL_FAILED =>
    { scr with btn_pause := set_icon_and_label item_id_t.pause (enable_button b) }
  | .ABSORBING_HEAT =>
    { scr with btn_pause := set_icon_and_label item_id_t.skip (enable_button b) }
  | .PAUSING =>
    { scr with btn_pause := set_icon_and_label item_id_t.pausing (disable_button b) }
  | .PAUSED =>
    let b1 := set_icon_and_label item_id_t.resume (enable_button b)
    { scr with btn_pause := if !media_inserted then disable_button b1 else b1 }
  | .RESUMING =>
    { scr with btn_pause := set_icon_and_label item_id_t.resuming (disable_button b) }
  | .REHEATING | .REHEATING_DONE =>
    { scr with btn_pause := set_icon_and_label item_id_t.reheating (disable_button b) }
  | .STOPPED | .PRINTED =>
    { scr with btn_pause := set_icon_and_label item_id_t.reprint (enable_button b) }
  | .ABORTING =>
    { scr with btn_pause := disable_button b }

/-- Embeds `set_tune_icon_and_label()`. -/
def set_tune_icon_and_label (scr : screen_printing_data_t) : screen_printing_data_t :=
  let scr1 := { scr with btn_tune := set_icon_and_label item_id_t.settings scr.btn_tune }
  match scr1.GetState with
  | .PRINTING | .ABSORBING_HEAT | .PAUSED => scr1.enable_tune_button
  | .ABORTING => { scr1 with btn_tune := disable_button scr1.btn_tune }
  | _ => scr1.disable_tune_button

/-- Embeds `set_stop_icon_and_label()`. -/
def set_stop_icon_and_label (scr : screen_printing_data_t) : screen_printing_data_t :=
  let b := scr.btn_stop
  match scr.GetState with
  | .STOPPED | .PRINTED =>
    { scr with btn_stop := set_icon_and_label item_id_t.home (enable_button b) }
  | .PAUSING | .RESUMING =>
    { scr with btn_stop := set_icon_and_label item_id_t.stop (disable_button b) }
  | .REHEATING =>
    { scr with btn_stop := set_icon_and_label item_id_t.stop (enable_button b) }
  | .ABORTING =>
    { scr with btn_stop := disable_button b }
  | _ =>
    { scr with btn_stop := set_icon_and_label item_id_t.stop (enable_button b) }

/-- Records a call that leaves the screen. -/
def emit (e : Effect) (scr : screen_printing_data_t) : screen_printing_data_t :=
  { scr with effects := e :: scr.effects }

/-- The switch over `marlin_vars()->print_state` that opens
`change_print_state()`: the state `st` it selects and the screen after the
statements of the selected case.  `is_waiting` is `bed_preheat.is_waiting()`.
The result is `none` for `mpsPowerPanic_acFault`, where the code is
`__builtin_unreachable()`. -/
def print_state_switch (opts : BuildOptions) (print_state : marlin_print_state_t)
    (is_waiting : Bool) (scr : screen_printing_data_t) :
    Option (printing_state_t × screen_printing_data_t) :=
  match print_state with
  | .mpsIdle | .mpsWaitGui | .mpsPrintPreviewInit | .mpsPrintPreviewImage
  | .mpsPrintPreviewQuestions | .mpsPrintInit =>
    some (printing_state_t.INITIAL, scr)
  | .mpsPrinting =>
    if is_waiting then some (printing_state_t.ABSORBING_HEAT, scr)
    else some (printing_state_t.PRINTING, scr)
  | .mpsPowerPanic_AwaitingResume | .mpsPaused =>
    some (printing_state_t.PAUSED, scr)
  | .mpsPausing_Begin | .mpsPausing_Failed_Code | .mpsPausing_WaitIdle
  | .mpsPausing_ParkHead =>
    some (printing_state_t.PAUSING,
      if opts.USE_ILI9488 then scr.emit Effect.print_progress_Pause else scr)
  | .mpsResuming_Reheating =>
    some (printing_state_t.REHEATING, { scr with stop_pressed := false })
  | .mpsResuming_Begin | .mpsResuming_UnparkHead_XY | .mpsResuming_UnparkHead_ZE
  | .mpsCrashRecovery_Begin | .mpsCrashRecovery_Retracting | .mpsCrashRecovery_Lifting
  | .mpsCrashRecovery_XY_Measure | .mpsCrashRecovery_Tool_Pickup
  | .mpsCrashRecovery_XY_HOME | .mpsCrashRecovery_Axis_NOK
  | .mpsCrashRecovery_Repeated_Crash | .mpsPowerPanic_Resume =>
    some (printing_state_t.RESUMING,
      if !opts.PRINTER_PRUSA_IXL && opts.USE_ILI9488
      then emit Effect.print_progress_Resume { scr with stop_pressed := false }
      else { scr with stop_pressed := false })
  | .mpsAborting_Begin | .mpsAborting_WaitIdle | .mpsAborting_ParkHead =>
    some (printing_state_t.ABORTING, { scr with stop_pressed := false })
  | .mpsFinishing_WaitIdle | .mpsFinishing_ParkHead =>
    some (printing_state_t.PRINTING, scr)
  | .mpsAborted =>
    some (printing_state_t.STOPPED, { scr with stop_pressed := false })
  | .mpsFinished | .mpsExit =>
    some (printing_state_t.PRINTED, scr)
  | .mpsPowerPanic_acFault => none

/-- The statements of `change_print_state()` after the switch, with `st0` the
state the switch selected: the override by `stop_pressed`, the publication of
a changed state with the recomputation of the three buttons, and the odometer
call. -/
def publish_state (media_inserted : Bool) (st0 : printing_state_t)
    (scr : screen_printing_data_t) : screen_printing_data_t :=
  let st := if scr.stop_pressed then printing_state_t.ABORTING else st0
  let scr2 :=
    if scr.state__readonly__use_change_print_state ≠ st then
      set_stop_icon_and_label (set_tune_icon_and_label
        (set_pause_icon_and_label media_inserted
          { scr with state__readonly__use_change_print_state := st }))
    else scr
  if st = printing_state_t.PRINTED ∨ st = printing_state_t.STOPPED
      ∨ st = printing_state_t.PAUSED
  then scr2.emit Effect.Odometer_force_to_eeprom else scr2

/-- Embeds `change_print_state()`: the switch, then the statements after it.  `vars`
is `marlin_vars()`, `bed_preheat` the preheat collaborator. -/
def change_print_state (opts : BuildOptions) (vars : marlin_vars_t)
    (bed_preheat : BedPreheat) (scr : screen_printing_data_t) :
    Option screen_printing_data_t :=
  match print_state_switch opts vars.print_state bed_preheat.is_waiting scr with
  | none => none
  | some (st0, scr1) => some (publish_state vars.media_inserted st0 scr1)

end screen_printing_data_t

/-- The affordance projection of a button: label, icon and whether it is
disabled (shadowed). -/
structure Affordance where
  label : String
  icon : png
  shadowed : Bool
  deriving DecidableEq, Repr

/-- The affordance projection of a button. -/
def Button.affordance (b : Button) : Affordance :=
  { label := b.txt.text, icon := b.ico.res, shadowed := b.ico.IsShadowed }

/-- The three projections of a screen: pause, tune and stop button. -/
def screen_printing_data_t.affordances (scr : screen_printing_data_t) :
    Affordance × Affordance × Affordance :=
  (scr.btn_pause.affordance, scr.btn_tune.affordance, scr.btn_stop.affordance)

/-- An enabled button showing the given item. -/
def plainButton (id : item_id_t) : Button :=
  { ico := { res := (btn_res id).2, shadowed := false, enabled := true, invalid := false },
    txt := { text := (btn_res id).1 } }

/-- A screen as constructed: no stop requested, the state invalid (`COUNT`),
the three buttons enabled. -/
def newScreen : screen_printing_data_t where
  stop_pressed := false
  waiting_for_abort := false
  state__readonly__use_change_print_state := printing_state_t.COUNT
  btn_tune := plainButton item_id_t.settings
  btn_pause := plainButton item_id_t.pause
  btn_stop := plainButton item_id_t.stop
  focused := none
  effects := []

/-- A preheat collaborator that is not waiting. -/
def idlePreheat : BedPreheat where
  heating_start_time := none
  can_preheat := false
  preheated := false
  waiting := false
  last_enabled_bedlets := 0

/-- A preheat collaborator inside `wait_for_preheat`. -/
def waitingPreheat : BedPreheat where
  heating_start_time := some 1000
  can_preheat := true
  preheated := false
  waiting := true
  last_enabled_bedlets := 0

/-- Build for the ILI9488 display, not an iXL. -/
def buildILI9488 : BuildOptions where
  USE_ILI9488 := true
  PRINTER_PRUSA_IXL := false

/-- The screen after `change_print_state` has seen the engine printing. -/
def printingScreen : screen_printing_data_t :=
  (newScreen.change_print_state buildILI9488
    { print_state := marlin_print_state_t.mpsPrinting, media_inserted := true }
    idlePreheat).getD newScreen

/-- The printing screen after `change_print_state` has seen the engine paused. -/
def pausedScreen : screen_printing_data_t :=
  (printingScreen.change_print_state buildILI9488
    { print_state := marlin_print_state_t.mpsPaused, media_inserted := true }
    idlePreheat).getD newScreen

/-- The printing screen after the user has confirmed the stop dialog
(`stopAction` sets `stop_pressed` and `waiting_for_abort`). -/
def stopRequestedScreen : screen_printing_data_t :=
  { printingScreen with stop_pressed := true, waiting_for_abort := true }

/-- The new screen after `change_print_state` has seen the engine paused. -/
def pausedFromNewScreen : screen_printing_data_t :=
  (newScreen.change_print_state buildILI9488
    { print_state := marlin_print_state_t.mpsPaused, media_inserted := true }
    idlePreheat).getD newScreen

/-! ## Bed preheat: the functions of `bed_preheat.cpp` -/

/-- The value an `int32_t` holds after the integer `x` is stored in it (two's
complement, wrapping modulo `2^32`). -/
def toInt32 (x : Int) : Int := (x + 2147483648) % 4294967296 - 2147483648

/-- The value a `uint32_t` holds after the integer `x` is stored in it. -/
def toUInt32 (x : Int) : Nat := (x % 4294967296).toNat

/-- Embeds `minimal_preheat_temp`. -/
def minimal_preheat_temp : Int := 60

/-- Embeds `minimal_temp_diff`. -/
def minimal_temp_diff : Int := 15

/-- What one call reads from outside the class: `thermalManager.degBed()`,
`thermalManager.degTargetBed()` (an `int16_t`),
`thermalManager.getEnabledBedletMask()` and `millis()` (a `uint32_t`), taken
at one instant.  The temperature manager is declared outside the excerpt; the
bed temperature is a fractional number of degrees. -/
structure Readings where
  degBed : Rat
  degTargetBed : Int
  enabledBedletMask : Nat
  millis : Nat
  deriving DecidableEq, Repr

namespace BedPreheat

/-- Embeds `BedPreheat::required_preheat_time()`, in milliseconds. -/
def required_preheat_time (r : Readings) : Nat :=
  if r.degTargetBed < minimal_preheat_temp then 0
  else
    let time : Int := toInt32 ((180 + (r.degTargetBed - 60) * (12 * 60 / 50)) * 1000)
    toUInt32 (if time > 0 then time else 0)

/-- Embeds `BedPreheat::remaining_preheat_time()`, in milliseconds.
`heating_start_time.value()` is read only where `has_value()` holds. -/
def remaining_preheat_time (r : Readings) (b : BedPreheat) : Nat :=
  let required : Int := toInt32 (required_preheat_time r)
  if decide (required ≠ 0) && b.heating_start_time.isSome then
    let elapsed : Int :=
      toInt32 (toUInt32 ((r.millis : Int) - ((b.heating_start_time.getD 0 : Nat) : Int)))
    let remaining : Int := toInt32 (required - elapsed)
    toUInt32 (if remaining < 0 then 0 else remaining)
  else 0

/-- Embeds `BedPreheat::update()`.  `MODULAR_HEATBED` is the preprocessor
condition `ENABLED(MODULAR_HEATBED)`. -/
def update (MODULAR_HEATBED : Bool) (r : Readings) (b : BedPreheat) : BedPreheat :=
  let temp_near_target : Bool :=
    decide (r.degTargetBed ≠ 0)
      && decide (|r.degBed - (r.degTargetBed : Rat)| < (minimal_temp_diff : Rat))
  let bedlets_changed : Bool :=
    MODULAR_HEATBED && decide (r.enabledBedletMask ≠ b.last_enabled_bedlets)
  let b1 : BedPreheat :=
    if bedlets_changed then { b with last_enabled_bedlets := r.enabledBedletMask } else b
  if temp_near_target && bedlets_changed == false then
    let b2 : BedPreheat :=
      if b1.heating_start_time.isSome == false
      then { b1 with heating_start_time := some (r.millis % 4294967296) } else b1
    let b3 : BedPreheat := { b2 with can_preheat := true }
    if remaining_preheat_time r b3 = 0 then { b3 with preheated := true } else b3
  else
    { b1 with heating_start_time := none, can_preheat := false, preheated := false }

/-- Embeds `BedPreheat::can_skip()`. -/
def can_skip (b : BedPreheat) : Bool := b.can_preheat && !b.preheated

/-- Embeds `BedPreheat::skip_preheat()`. -/
def skip_preheat (b : BedPreheat) : BedPreheat :=
  if b.can_preheat then { b with preheated := true } else b

end BedPreheat

/-- A call that changes the preheat state while `wait_for_preheat` is inside
`idle(true)`: the class has no other member function that writes
`can_preheat`, `preheated` or `heating_start_time`. -/
inductive PreheatCall where
  | update (r : Readings)
  | skip_preheat
  deriving DecidableEq, Repr

/-- Performs one call on the preheat state. -/
def PreheatCall.perform (MODULAR_HEATBED : Bool) : PreheatCall → BedPreheat → BedPreheat
  | .update r, b => b.update MODULAR_HEATBED r
  | .skip_preheat, b => b.skip_preheat

namespace BedPreheat

/-- The state invariant of the class: preheated only if preheating is
possible, and preheating possible exactly when a start time is recorded. -/
def consistent (b : BedPreheat) : Prop :=
  (b.preheated = true → b.can_preheat = true) ∧
  (b.can_preheat = true ↔ b.heating_start_time.isSome = true)

instance (b : BedPreheat) : Decidable b.consistent := by
  unfold consistent
  infer_instance

/-- Time elapsed since `start` as `remaining_preheat_time` computes it:
`millis() - start` in `uint32_t`. -/
def elapsed_ms (r : Readings) (start : Nat) : Nat :=
  toUInt32 ((r.millis : Int) - (start : Int))

end BedPreheat

/-- A preheat state 10 s into absorbing heat. -/
def heatingPreheat : BedPreheat where
  heating_start_time := some 5000
  can_preheat := true
  preheated := false
  waiting := false
  last_enabled_bedlets := 0

/-- Readings at `millis() = 15000` with the bed at its target of 60 degrees. -/
def readingsAt60 : Readings where
  degBed := 60
  degTargetBed := 60
  enabledBedletMask := 0
  millis := 15000

/-- Readings at `millis() = 15000` with the bed at its target of 100 degrees. -/
def readingsAt100 : Readings where
  degBed := 100
  degTargetBed := 100
  enabledBedletMask := 0
  millis := 15000

/-- Readings 200 s later than `readingsAt60`, same target. -/
def readingsAt60Later : Readings where
  degBed := 60
  degTargetBed := 60
  enabledBedletMask := 0
  millis := 215000

/-- The paused screen while the engine reheats for the resume. -/
def reheatingScreen : screen_printing_data_t :=
  (pausedScreen.change_print_state buildILI9488
    { print_state := marlin_print_state_t.mpsResuming_Reheating, media_inserted := true }
    idlePreheat).getD newScreen

/-! ## Theorems: filament sensors -/

/-- C1: `has_filament` is conservative.  Whatever the cached table, when the
cached state of the sensor it resolves (`current_extruder`) is Disabled,
NotInitialized, NotCalibrated or NotConnected, both `has_filament(true)` and
`has_filament(false)` are false; and `has_filament(true)` is true exactly when
that cached state is HasFilament. -/
theorem has_filament_conservative (fs : FilamentSensors) :
    (fs.sensor_state LogicalFilamentSensor.current_extruder ∈
        [FilamentSensorState.Disabled, FilamentSensorState.NotInitialized,
         FilamentSensorState.NotCalibrated, FilamentSensorState.NotConnected] →
      fs.has_filament true = false ∧ fs.has_filament false = false) ∧
    (fs.has_filament true = true ↔
      fs.sensor_state LogicalFilamentSensor.current_extruder
        = FilamentSensorState.HasFilament) := by
  unfold FilamentSensors.has_filament FilamentSensors.sensor_state
  constructor
  · intro h
    simp only [List.mem_cons, List.mem_singleton, List.not_mem_nil, or_false] at h
    rcases h with h | h | h | h <;> simp [h]
  · simp

/-- The theorem of C1 at a facade whose current extruder sensor is not
connected while another logical sensor reports filament. -/
theorem has_filament_conservative_witness :
    notConnectedFacade.sensor_state LogicalFilamentSensor.current_extruder ∈
        [FilamentSensorState.Disabled, FilamentSensorState.NotInitialized,
         FilamentSensorState.NotCalibrated, FilamentSensorState.NotConnected] ∧
      notConnectedFacade.has_filament true = false ∧
      notConnectedFacade.has_filament false = false :=
  ⟨by decide, (has_filament_conservative notConnectedFacade).1 (by decide)⟩

/-! ### Lock counters -/

theorem count_take_le_length (c : LockCall) (cs : List LockCall) (n : Nat) :
    (cs.take n).count c ≤ cs.length :=
  le_trans (List.count_le_length c (cs.take n)) (by simp)

/-- The event counter after a run, in terms of the completed calls, as long
as the counter stays within `uint8_t`. -/
theorem runLockCalls_event_lock (cs : List LockCall) :
    ∀ fs : FilamentSensors,
      (∀ n, fs.event_lock + incEvCount ((runLockCalls fs cs).2.take n)
          ≤ 255 + decEvCount ((runLockCalls fs cs).2.take n)) →
      (runLockCalls fs cs).1.event_lock + decEvCount (runLockCalls fs cs).2
        = fs.event_lock + incEvCount (runLockCalls fs cs).2 := by
  induction cs with
  | nil => intro fs _; simp [runLockCalls, incEvCount, decEvCount]
  | cons c cs ih =>
    intro fs h
    cases c with
    | IncEvLock =>
      have h1 := h 1
      simp [runLockCalls, LockCall.perform, incEvCount, decEvCount] at h1
      have hfs : (FilamentSensors.IncEvLock fs).event_lock = fs.event_lock + 1 := by
        simp only [FilamentSensors.IncEvLock]; omega
      have := ih (FilamentSensors.IncEvLock fs) (by
        intro n
        have hn := h (n + 1)
        simp [runLockCalls, LockCall.perform, incEvCount, decEvCount] at hn ⊢
        omega)
      simp [runLockCalls, LockCall.perform, incEvCount, decEvCount] at this ⊢
      omega
    | DecEvLock =>
      by_cases hz : fs.event_lock > 0
      · have hfs : FilamentSensors.DecEvLock fs
            = some { fs with event_lock := fs.event_lock - 1 } := by
          simp [FilamentSensors.DecEvLock, hz]
        have := ih { fs with event_lock := fs.event_lock - 1 } (by
          intro n
          have hn := h (n + 1)
          simp [runLockCalls, LockCall.perform, hfs, incEvCount, decEvCount] at hn ⊢
          omega)
        simp [runLockCalls, LockCall.perform, hfs, incEvCount, decEvCount] at this ⊢
        omega
      · have hfs : FilamentSensors.DecEvLock fs = none := by
          simp [FilamentSensors.DecEvLock, hz]
        simp [runLockCalls, LockCall.perform, hfs, incEvCount, decEvCount]
    | IncAutoloadLock =>
      have := ih (FilamentSensors.IncAutoloadLock fs) (by
        intro n
        have hn := h n
        simp [runLockCalls, LockCall.perform, incEvCount, decEvCount] at hn ⊢
        cases n with
        | zero => simpa [FilamentSensors.IncAutoloadLock] using h 0
        | succ m =>
          have hm := h (m + 1 + 1)
          simp [runLockCalls, LockCall.perform, incEvCount, decEvCount] at hm
          simpa [FilamentSensors.IncAutoloadLock] using hm)
      simp [runLockCalls, LockCall.perform, incEvCount, decEvCount] at this ⊢
      simpa [FilamentSensors.IncAutoloadLock] using this
    | DecAutoloadLock =>
      by_cases hz : fs.autoload_lock > 0
      · have hfs : FilamentSensors.DecAutoloadLock fs
            = some { fs with autoload_lock := fs.autoload_lock - 1 } := by
          simp [FilamentSensors.DecAutoloadLock, hz]
        have := ih { fs with autoload_lock := fs.autoload_lock - 1 } (by
          intro n
          have hn := h (n + 1)
          simp [runLockCalls, LockCall.perform, hfs, incEvCount, decEvCount] at hn ⊢
          omega)
        simp [runLockCalls, LockCall.perform, hfs, incEvCount, decEvCount] at this ⊢
        omega
      · have hfs : FilamentSensors.DecAutoloadLock fs = none := by
          simp [FilamentSensors.DecAutoloadLock, hz]
        simp [runLockCalls, LockCall.perform, hfs, incEvCount, decEvCount]

/-- The autoload counter after a run, in terms of the completed calls, as
long as the counter stays within `uint8_t`. -/
theorem runLockCalls_autoload_lock (cs : List LockCall) :
    ∀ fs : FilamentSensors,
      (∀ n, fs.autoload_lock + incAutoloadCount ((runLockCalls fs cs).2.take n)
          ≤ 255 + decAutoloadCount ((runLockCalls fs cs).2.take n)) →
      (runLockCalls fs cs).1.autoload_lock + decAutoloadCount (runLockCalls fs cs).2
        = fs.autoload_lock + incAutoloadCount (runLockCalls fs cs).2 := by
  induction cs with
  | nil => intro fs _; simp [runLockCalls, incAutoloadCount, decAutoloadCount]
  | cons c cs ih =>
    intro fs h
    cases c with
    | IncAutoloadLock =>
      have h1 := h 1
      simp [runLockCalls, LockCall.perform, incAutoloadCount, decAutoloadCount] at h1
      have hfs : (FilamentSensors.IncAutoloadLock fs).autoload_lock
          = fs.autoload_lock + 1 := by
        simp only [FilamentSensors.IncAutoloadLock]; omega
      have := ih (FilamentSensors.IncAutoloadLock fs) (by
        intro n
        have hn := h (n + 1)
        simp [runLockCalls, LockCall.perform, incAutoloadCount, decAutoloadCount] at hn ⊢
        omega)
      simp [runLockCalls, LockCall.perform, incAutoloadCount, decAutoloadCount] at this ⊢
      omega
    | DecAutoloadLock =>
      by_cases hz : fs.autoload_lock > 0
      · have hfs : FilamentSensors.DecAutoloadLock fs
            = some { fs with autoload_lock := fs.autoload_lock - 1 } := by
          simp [FilamentSensors.DecAutoloadLock, hz]
        have := ih { fs with autoload_lock := fs.autoload_lock - 1 } (by
          intro n
          have hn := h (n + 1)
          simp [runLockCalls, LockCall.perform, hfs, incAutoloadCount,
            decAutoloadCount] at hn ⊢
          omega)
        simp [runLockCalls, LockCall.perform, hfs, incAutoloadCount,
          decAutoloadCount] at this ⊢
        omega
      · have hfs : FilamentSensors.DecAutoloadLock fs = none := by
          simp [FilamentSensors.DecAutoloadLock, hz]
        simp [runLockCalls, LockCall.perform, hfs, incAutoloadCount, decAutoloadCount]
    | IncEvLock =>
      have := ih (FilamentSensors.IncEvLock fs) (by
        intro n
        have hn := h (n + 1)
        simp [runLockCalls, LockCall.perform, incAutoloadCount, decAutoloadCount] at hn ⊢
        simpa [FilamentSensors.IncEvLock] using hn)
      simp [runLockCalls, LockCall.perform, incAutoloadCount, decAutoloadCount] at this ⊢
      simpa [FilamentSensors.IncEvLock] using this
    | DecEvLock =>
      by_cases hz : fs.event_lock > 0
      · have hfs : FilamentSensors.DecEvLock fs
            = some { fs with event_lock := fs.event_lock - 1 } := by
          simp [FilamentSensors.DecEvLock, hz]
        have := ih { fs with event_lock := fs.event_lock - 1 } (by
          intro n
          have hn := h (n + 1)
          simp [runLockCalls, LockCall.perform, hfs, incAutoloadCount,
            decAutoloadCount] at hn ⊢
          omega)
        simp [runLockCalls, LockCall.perform, hfs, incAutoloadCount,
          decAutoloadCount] at this ⊢
        omega
      · have hfs : FilamentSensors.DecEvLock fs = none := by
          simp [FilamentSensors.DecEvLock, hz]
        simp [runLockCalls, LockCall.perform, hfs, incAutoloadCount, decAutoloadCount]

/-- C2 (amended): starting from an unlocked facade, for every sequence of
IncEvLock / DecEvLock / IncAutoloadLock / DecAutoloadLock calls taken in the
order in which they take effect, and with `done` the calls that completed: if
after every prefix of `done` at most 255 IncEvLock calls are unmatched (the
range of the `uint8_t` counter), then the completed DecEvLock calls never
outnumber the completed IncEvLock calls, `event_lock` is their difference, and
`isEvLocked()` is true exactly when more IncEvLock than DecEvLock calls have
completed; likewise for the autoload counter and `isAutoloadLocked()`. -/
theorem lock_counters_track_calls (fs : FilamentSensors)
    (h0 : fs.event_lock = 0 ∧ fs.autoload_lock = 0) (cs : List LockCall) :
    ((∀ n, incEvCount ((runLockCalls fs cs).2.take n)
          - decEvCount ((runLockCalls fs cs).2.take n) ≤ 255) →
      decEvCount (runLockCalls fs cs).2 ≤ incEvCount (runLockCalls fs cs).2 ∧
      (runLockCalls fs cs).1.event_lock
        = incEvCount (runLockCalls fs cs).2 - decEvCount (runLockCalls fs cs).2 ∧
      ((runLockCalls fs cs).1.isEvLocked = true ↔
        decEvCount (runLockCalls fs cs).2 < incEvCount (runLockCalls fs cs).2)) ∧
    ((∀ n, incAutoloadCount ((runLockCalls fs cs).2.take n)
          - decAutoloadCount ((runLockCalls fs cs).2.take n) ≤ 255) →
      decAutoloadCount (runLockCalls fs cs).2 ≤ incAutoloadCount (runLockCalls fs cs).2 ∧
      (runLockCalls fs cs).1.autoload_lock
        = incAutoloadCount (runLockCalls fs cs).2
          - decAutoloadCount (runLockCalls fs cs).2 ∧
      ((runLockCalls fs cs).1.isAutoloadLocked = true ↔
        decAutoloadCount (runLockCalls fs cs).2
          < incAutoloadCount (runLockCalls fs cs).2)) := by
  constructor
  · intro h
    have key := runLockCalls_event_lock cs fs (by
      intro n
      have := h n
      omega)
    simp only [FilamentSensors.isEvLocked, decide_eq_true_eq]
    omega
  · intro h
    have key := runLockCalls_autoload_lock cs fs (by
      intro n
      have := h n
      omega)
    simp only [FilamentSensors.isAutoloadLocked, decide_eq_true_eq]
    omega

/-- The theorem of C2 on nested suppression windows: two event holders and
one autoload holder come and go, then a DecEvLock too many, which asserts. -/
theorem lock_counters_track_calls_witness :
    (unlockedFacade.event_lock = 0 ∧ unlockedFacade.autoload_lock = 0) ∧
    (runLockCalls unlockedFacade nestedCalls).1.event_lock = 0 ∧
    (runLockCalls unlockedFacade nestedCalls).1.isEvLocked = false ∧
    (runLockCalls unlockedFacade (nestedCalls.take 3)).1.event_lock = 2 ∧
    (runLockCalls unlockedFacade (nestedCalls.take 3)).1.isEvLocked = true := by
  have full := (lock_counters_track_calls unlockedFacade ⟨rfl, rfl⟩ nestedCalls).1 (by
    intro n
    have := count_take_le_length LockCall.IncEvLock
      (runLockCalls unlockedFacade nestedCalls).2 n
    have hl : (runLockCalls unlockedFacade nestedCalls).2.length = 6 := by decide
    simp only [incEvCount]
    omega)
  have part := (lock_counters_track_calls unlockedFacade ⟨rfl, rfl⟩ (nestedCalls.take 3)).1 (by
    intro n
    have := count_take_le_length LockCall.IncEvLock
      (runLockCalls unlockedFacade (nestedCalls.take 3)).2 n
    have hl : (runLockCalls unlockedFacade (nestedCalls.take 3)).2.length = 3 := by decide
    simp only [incEvCount]
    omega)
  have c1 : incEvCount (runLockCalls unlockedFacade nestedCalls).2 = 2 := by decide
  have c2 : decEvCount (runLockCalls unlockedFacade nestedCalls).2 = 2 := by decide
  have c3 : incEvCount (runLockCalls unlockedFacade (nestedCalls.take 3)).2 = 2 := by decide
  have c4 : decEvCount (runLockCalls unlockedFacade (nestedCalls.take 3)).2 = 0 := by decide
  refine ⟨⟨rfl, rfl⟩, ?_, ?_, ?_, ?_⟩
  · rw [full.2.1, c1, c2]
  · have := full.2.2
    rw [c1, c2] at this
    cases hb : (runLockCalls unlockedFacade nestedCalls).1.isEvLocked
    · rfl
    · exact absurd (this.1 hb) (by decide)
  · rw [part.2.1, c3, c4]
  · exact part.2.2.2 (by rw [c3, c4]; decide)

/-- Repeated IncEvLock calls from a counter within `uint8_t`: all complete
and the counter is the sum modulo 256. -/
theorem runLockCalls_replicate_IncEvLock (n : Nat) :
    ∀ fs : FilamentSensors, fs.event_lock < 256 →
      (runLockCalls fs (List.replicate n LockCall.IncEvLock)).1.event_lock
          = (fs.event_lock + n) % 256 ∧
      (runLockCalls fs (List.replicate n LockCall.IncEvLock)).2
          = List.replicate n LockCall.IncEvLock := by
  induction n with
  | zero =>
    intro fs h
    simp [runLockCalls]
    omega
  | succ k ih =>
    intro fs h
    have hk := ih (FilamentSensors.IncEvLock fs) (by
      simp only [FilamentSensors.IncEvLock]; omega)
    simp only [List.replicate_succ, runLockCalls, LockCall.perform]
    refine ⟨?_, by rw [hk.2]⟩
    rw [hk.1]
    simp only [FilamentSensors.IncEvLock]
    omega

/-- C2 as stated fails: after 256 completed IncEvLock calls and no DecEvLock
the `uint8_t` counter has wrapped to 0, so `isEvLocked()` is false although
more IncEvLock than DecEvLock calls have completed. -/
theorem lock_counter_wraps_after_256 :
    (runLockCalls unlockedFacade (List.replicate 256 LockCall.IncEvLock)).2
        = List.replicate 256 LockCall.IncEvLock ∧
    ¬ ((runLockCalls unlockedFacade (List.replicate 256 LockCall.IncEvLock)).1.isEvLocked
          = true ↔
        decEvCount (runLockCalls unlockedFacade (List.replicate 256 LockCall.IncEvLock)).2
          < incEvCount
              (runLockCalls unlockedFacade (List.replicate 256 LockCall.IncEvLock)).2) := by
  have h := runLockCalls_replicate_IncEvLock 256 unlockedFacade (by decide)
  refine ⟨h.2, ?_⟩
  have he : (runLockCalls unlockedFacade
      (List.replicate 256 LockCall.IncEvLock)).1.event_lock = 0 := by
    rw [h.1]; rfl
  have hi : incEvCount (List.replicate 256 LockCall.IncEvLock) = 256 := by
    simp only [incEvCount, List.count_replicate_self]
  have hd : decEvCount (List.replicate 256 LockCall.IncEvLock) = 0 := by
    simp only [decEvCount, List.count_replicate]
    rfl
  rw [h.2, hi, hd]
  simp only [FilamentSensors.isEvLocked, he]
  decide

/-- C3: the suppression predicates are reference-count tests.  For every
value of the counters `isEvLocked()` is true iff `event_lock > 0` and
`isAutoloadLocked()` is true iff `autoload_lock > 0`, and two facades that
agree on a counter agree on its predicate, whatever their other members. -/
theorem suppression_predicates_are_count_tests (fs fs' : FilamentSensors) :
    (fs.isEvLocked = true ↔ fs.event_lock > 0) ∧
    (fs.isAutoloadLocked = true ↔ fs.autoload_lock > 0) ∧
    (fs.event_lock = fs'.event_lock → fs.isEvLocked = fs'.isEvLocked) ∧
    (fs.autoload_lock = fs'.autoload_lock → fs.isAutoloadLocked = fs'.isAutoloadLocked) := by
  refine ⟨?_, ?_, ?_, ?_⟩
  · simp [FilamentSensors.isEvLocked]
  · simp [FilamentSensors.isAutoloadLocked]
  · intro h
    simp [FilamentSensors.isEvLocked, h]
  · intro h
    simp [FilamentSensors.isAutoloadLocked, h]

/-- The theorem of C3 at two facades that share `event_lock = 2` and differ
in the other members: both are event-locked. -/
theorem suppression_predicates_are_count_tests_witness :
    twoEventHolders.event_lock = twoEventHoldersBusy.event_lock ∧
    twoEventHolders.isEvLocked = twoEventHoldersBusy.isEvLocked ∧
    (twoEventHolders.isEvLocked = true ↔ twoEventHolders.event_lock > 0) :=
  ⟨rfl,
   (suppression_predicates_are_count_tests twoEventHolders twoEventHoldersBusy).2.2.1 rfl,
   (suppression_predicates_are_count_tests twoEventHolders twoEventHoldersBusy).1⟩

/-! ### Sensor events -/

theorem GenerateEvent_isEdge (s : IFSensor) :
    (IFSensor.GenerateEvent s).1.isEdge
      = IFSensor.isTransition s.last_evaluated_state s.state := by
  rcases s with ⟨l, c⟩
  cases l <;> cases c <;> rfl

theorem GenerateEvent_snd (s : IFSensor) :
    (IFSensor.GenerateEvent s).2 = { s with last_evaluated_state := s.state } := by
  rcases s with ⟨l, c⟩
  cases l <;> cases c <;> rfl

theorem countEdges_runCycles (sts : List FilamentSensorState) :
    ∀ s : IFSensor, IFSensor.countEdges (IFSensor.runCycles s sts)
      = IFSensor.countTransitions s.last_evaluated_state sts := by
  induction sts with
  | nil => intro s; rfl
  | cons st sts ih =>
    intro s
    have h1 := GenerateEvent_isEdge { s with state := st }
    have h2 := GenerateEvent_snd { s with state := st }
    simp only [IFSensor.runCycles, IFSensor.countEdges, IFSensor.countTransitions,
      List.filter_cons, h1]
    have hl : (IFSensor.GenerateEvent { s with state := st }).2.last_evaluated_state
        = st := by rw [h2]
    have := ih (IFSensor.GenerateEvent { s with state := st }).2
    rw [hl] at this
    simp only [IFSensor.countEdges] at this
    by_cases ht : IFSensor.isTransition s.last_evaluated_state st = true
    · simp [ht, this]
      omega
    · simp [ht, this]

/-- C4: `GenerateEvent` returns each edge only once.  A call returns an edge
event exactly when the visible state has gone from NoFilament to HasFilament
(EdgeFilamentInserted) or from HasFilament to NoFilament (EdgeFilamentRemoved)
since the last evaluation; it leaves the visible state alone and remembers it
as evaluated, so a second call without a state change returns the level event
of the state and no edge; and over any sequence of cycles, one call per cycle,
the number of edge events equals the number of such transitions. -/
theorem GenerateEvent_each_edge_once (s : IFSensor) (sts : List FilamentSensorState) :
    ((IFSensor.GenerateEvent s).1.isEdge
        = IFSensor.isTransition s.last_evaluated_state s.state) ∧
    ((IFSensor.GenerateEvent s).1 = IFSensor.event.EdgeFilamentInserted ↔
        s.last_evaluated_state = FilamentSensorState.NoFilament ∧
        s.state = FilamentSensorState.HasFilament) ∧
    ((IFSensor.GenerateEvent s).1 = IFSensor.event.EdgeFilamentRemoved ↔
        s.last_evaluated_state = FilamentSensorState.HasFilament ∧
        s.state = FilamentSensorState.NoFilament) ∧
    (IFSensor.GenerateEvent s).2.Get = s.Get ∧
    (IFSensor.GenerateEvent s).2.last_evaluated_state = s.state ∧
    (IFSensor.GenerateEvent (IFSensor.GenerateEvent s).2).1
        = (if s.state = FilamentSensorState.HasFilament then IFSensor.event.HasFilament
           else IFSensor.event.NoFilament) ∧
    (IFSensor.GenerateEvent (IFSensor.GenerateEvent s).2).1.isEdge = false ∧
    IFSensor.countEdges (IFSensor.runCycles s sts)
        = IFSensor.countTransitions s.last_evaluated_state sts := by
  refine ⟨GenerateEvent_isEdge s, ?_, ?_, ?_, ?_, ?_, ?_, countEdges_runCycles sts s⟩
  all_goals
    rcases s with ⟨l, c⟩
    cases l <;> cases c <;> decide

/-! ### Sticky latches -/

/-- C5: clearing a latch clears that latch only.  After `ClrM600Sent()`
`WasM600_send()` is false and after `ClrAutoloadSent()`
`IsAutoloadInProgress()` is false; each clear leaves the other latch, both
lock counters, the pending and processing flags, the cached sensor states and
the remaining members as they were; and a clear latch stays clear. -/
theorem clear_latch_frame (fs : FilamentSensors) :
    fs.ClrM600Sent.WasM600_send = false ∧
    fs.ClrM600Sent = { fs with m600_sent := false } ∧
    fs.ClrM600Sent.IsAutoloadInProgress = fs.IsAutoloadInProgress ∧
    fs.ClrM600Sent.event_lock = fs.event_lock ∧
    fs.ClrM600Sent.autoload_lock = fs.autoload_lock ∧
    fs.ClrM600Sent.enable_state_update_pending = fs.enable_state_update_pending ∧
    fs.ClrM600Sent.enable_state_update_processing = fs.enable_state_update_processing ∧
    fs.ClrM600Sent.logical_sensor_states_ = fs.logical_sensor_states_ ∧
    fs.ClrM600Sent.ClrM600Sent = fs.ClrM600Sent ∧
    fs.ClrAutoloadSent.IsAutoloadInProgress = false ∧
    fs.ClrAutoloadSent = { fs with autoload_sent := false } ∧
    fs.ClrAutoloadSent.WasM600_send = fs.WasM600_send ∧
    fs.ClrAutoloadSent.event_lock = fs.event_lock ∧
    fs.ClrAutoloadSent.autoload_lock = fs.autoload_lock ∧
    fs.ClrAutoloadSent.enable_state_update_pending = fs.enable_state_update_pending ∧
    fs.ClrAutoloadSent.enable_state_update_processing
      = fs.enable_state_update_processing ∧
    fs.ClrAutoloadSent.logical_sensor_states_ = fs.logical_sensor_states_ ∧
    fs.ClrAutoloadSent.ClrAutoloadSent = fs.ClrAutoloadSent ∧
    fs.ClrM600Sent.ClrAutoloadSent.WasM600_send = false ∧
    fs.ClrAutoloadSent.ClrM600Sent.IsAutoloadInProgress = false :=
  ⟨rfl, rfl, rfl, rfl, rfl, rfl, rfl, rfl, rfl, rfl, rfl, rfl, rfl, rfl, rfl, rfl, rfl,
   rfl, rfl, rfl⟩

/-! ## Theorems: printing screen -/

/-! ### What the button functions leave alone -/

theorem set_pause_icon_and_label_frame (m : Bool) (scr : screen_printing_data_t) :
    (scr.set_pause_icon_and_label m).GetState = scr.GetState ∧
    (scr.set_pause_icon_and_label m).stop_pressed = scr.stop_pressed ∧
    (scr.set_pause_icon_and_label m).btn_tune = scr.btn_tune ∧
    (scr.set_pause_icon_and_label m).btn_stop = scr.btn_stop ∧
    (scr.set_pause_icon_and_label m).focused = scr.focused := by
  unfold screen_printing_data_t.set_pause_icon_and_label
  split <;> simp [screen_printing_data_t.GetState]

theorem set_tune_icon_and_label_frame (scr : screen_printing_data_t) :
    scr.set_tune_icon_and_label.GetState = scr.GetState ∧
    scr.set_tune_icon_and_label.stop_pressed = scr.stop_pressed ∧
    scr.set_tune_icon_and_label.btn_pause = scr.btn_pause ∧
    scr.set_tune_icon_and_label.btn_stop = scr.btn_stop := by
  unfold screen_printing_data_t.set_tune_icon_and_label
  simp only
  split <;>
    simp [screen_printing_data_t.GetState, screen_printing_data_t.enable_tune_button,
      screen_printing_data_t.disable_tune_button, screen_printing_data_t.pause_SetFocus]
  split <;> (try split) <;> simp

theorem set_stop_icon_and_label_frame (scr : screen_printing_data_t) :
    scr.set_stop_icon_and_label.GetState = scr.GetState ∧
    scr.set_stop_icon_and_label.stop_pressed = scr.stop_pressed ∧
    scr.set_stop_icon_and_label.btn_pause = scr.btn_pause ∧
    scr.set_stop_icon_and_label.btn_tune = scr.btn_tune ∧
    scr.set_stop_icon_and_label.focused = scr.focused := by
  unfold screen_printing_data_t.set_stop_icon_and_label
  split <;> simp [screen_printing_data_t.GetState]

/-! ### The published state -/

/-- The state published after the switch, and the stop flag: the button
functions change neither. -/
theorem publish_state_frame (m : Bool) (st0 : printing_state_t)
    (scr : screen_printing_data_t) :
    (scr.publish_state m st0).GetState
      = (if scr.stop_pressed then printing_state_t.ABORTING else st0) ∧
    (scr.publish_state m st0).stop_pressed = scr.stop_pressed := by
  have hp := set_pause_icon_and_label_frame m
  have ht := set_tune_icon_and_label_frame
  have hs := set_stop_icon_and_label_frame
  unfold screen_printing_data_t.publish_state
  simp only
  constructor
  · split_ifs <;>
      simp_all [screen_printing_data_t.emit, hp, ht, hs, screen_printing_data_t.GetState]
  · split_ifs <;>
      simp_all [screen_printing_data_t.emit, hp, ht, hs, screen_printing_data_t.GetState]

/-- C10: for every engine print state other than `mpsPowerPanic_acFault`, and
every value of `stop_pressed` and `is_waiting()`, `change_print_state` returns
and the state it publishes (`GetState()` afterwards) is one of INITIAL,
PRINTING, ABSORBING_HEAT, PAUSING, PAUSED, RESUMING, REHEATING,
REHEATING_DONE, ABORTING, STOPPED, PRINTED; it is never `COUNT`. -/
theorem published_state_in_state_machine (opts : BuildOptions) (vars : marlin_vars_t)
    (bed_preheat : BedPreheat) (scr : screen_printing_data_t)
    (h : vars.print_state ≠ marlin_print_state_t.mpsPowerPanic_acFault) :
    ∃ scr', scr.change_print_state opts vars bed_preheat = some scr' ∧
      scr'.GetState ∈
        [printing_state_t.INITIAL, printing_state_t.PRINTING,
         printing_state_t.ABSORBING_HEAT, printing_state_t.PAUSING,
         printing_state_t.PAUSED, printing_state_t.RESUMING, printing_state_t.REHEATING,
         printing_state_t.REHEATING_DONE, printing_state_t.ABORTING,
         printing_state_t.STOPPED, printing_state_t.PRINTED] ∧
      scr'.GetState ≠ printing_state_t.COUNT := by
  rcases vars with ⟨ps, media⟩
  cases ps <;> first
    | exact absurd rfl h
    | (simp only [screen_printing_data_t.change_print_state,
        screen_printing_data_t.print_state_switch]
       (try split_ifs) <;>
        (refine ⟨_, rfl, ?_⟩
         rw [(publish_state_frame _ _ _).1]
         (try split_ifs) <;> simp))

/-- The theorem of C10 at a screen with a stop request while the engine is
paused: the published state is ABORTING. -/
theorem published_state_in_state_machine_witness :
    (marlin_print_state_t.mpsPaused ≠ marlin_print_state_t.mpsPowerPanic_acFault) ∧
    ∃ scr', stopRequestedScreen.change_print_state buildILI9488
        { print_state := marlin_print_state_t.mpsPaused, media_inserted := true }
        idlePreheat = some scr' ∧
      scr'.GetState ∈
        [printing_state_t.INITIAL, printing_state_t.PRINTING,
         printing_state_t.ABSORBING_HEAT, printing_state_t.PAUSING,
         printing_state_t.PAUSED, printing_state_t.RESUMING, printing_state_t.REHEATING,
         printing_state_t.REHEATING_DONE, printing_state_t.ABORTING,
         printing_state_t.STOPPED, printing_state_t.PRINTED] ∧
      scr'.GetState ≠ printing_state_t.COUNT :=
  ⟨by decide,
   published_state_in_state_machine buildILI9488
     { print_state := marlin_print_state_t.mpsPaused, media_inserted := true }
     idlePreheat stopRequestedScreen (by decide)⟩

/-- C6: `change_print_state` selects ABSORBING_HEAT from `is_waiting()` alone.
For every engine state, stop flag and preheat collaborator, the call publishes
ABSORBING_HEAT if and only if the engine state is `mpsPrinting`, `is_waiting()`
is true and `stop_pressed` is false; with `mpsPrinting`, `is_waiting()` false
and `stop_pressed` false it publishes PRINTING; and two collaborators with the
same `is_waiting()` give the same result. -/
theorem absorbing_heat_iff_waiting (opts : BuildOptions) (vars : marlin_vars_t)
    (bed_preheat bed_preheat' : BedPreheat) (scr : screen_printing_data_t) :
    ((∃ scr', scr.change_print_state opts vars bed_preheat = some scr' ∧
          scr'.GetState = printing_state_t.ABSORBING_HEAT) ↔
        (vars.print_state = marlin_print_state_t.mpsPrinting ∧
          bed_preheat.is_waiting = true ∧ scr.stop_pressed = false)) ∧
    (vars.print_state = marlin_print_state_t.mpsPrinting →
        bed_preheat.is_waiting = false → scr.stop_pressed = false →
        ∃ scr', scr.change_print_state opts vars bed_preheat = some scr' ∧
          scr'.GetState = printing_state_t.PRINTING) ∧
    (bed_preheat.is_waiting = bed_preheat'.is_waiting →
        scr.change_print_state opts vars bed_preheat
          = scr.change_print_state opts vars bed_preheat') := by
  rcases vars with ⟨ps, media⟩
  have key := fun st0 s => (publish_state_frame media st0 s).1
  refine ⟨?_, ?_, ?_⟩
  · cases hw : bed_preheat.is_waiting <;> cases hs : scr.stop_pressed <;> cases ps <;>
      simp [screen_printing_data_t.change_print_state,
        screen_printing_data_t.print_state_switch, key, hw, hs,
        screen_printing_data_t.emit, apply_ite screen_printing_data_t.stop_pressed]
  · intro hp hw hs
    simp only at hp
    subst hp
    simp [screen_printing_data_t.change_print_state,
      screen_printing_data_t.print_state_switch, key, hw, hs]
  · intro hw
    simp only [screen_printing_data_t.change_print_state, hw]

/-- The theorem of C6 at the printing screen: PRINTING is published while the
preheat collaborator is not waiting, ABSORBING_HEAT while it is. -/
theorem absorbing_heat_iff_waiting_witness :
    (idlePreheat.is_waiting = false ∧ printingScreen.stop_pressed = false) ∧
    (∃ scr', printingScreen.change_print_state buildILI9488
        { print_state := marlin_print_state_t.mpsPrinting, media_inserted := true }
        idlePreheat = some scr' ∧
      scr'.GetState = printing_state_t.PRINTING) ∧
    (∃ scr', printingScreen.change_print_state buildILI9488
        { print_state := marlin_print_state_t.mpsPrinting, media_inserted := true }
        waitingPreheat = some scr' ∧
      scr'.GetState = printing_state_t.ABSORBING_HEAT) :=
  ⟨⟨rfl, rfl⟩,
   (absorbing_heat_iff_waiting buildILI9488
      { print_state := marlin_print_state_t.mpsPrinting, media_inserted := true }
      idlePreheat idlePreheat printingScreen).2.1 rfl rfl rfl,
   (absorbing_heat_iff_waiting buildILI9488
      { print_state := marlin_print_state_t.mpsPrinting, media_inserted := true }
      waitingPreheat waitingPreheat printingScreen).1.2 ⟨rfl, rfl, rfl⟩⟩

/-- C7 (amended): `change_print_state` never sets `stop_pressed`, and for
every engine state but `mpsPowerPanic_acFault` it returns having cleared the
flag exactly when the engine state is `mpsResuming_Reheating`, a resuming
state, a crash-recovery state, `mpsPowerPanic_Resume`, an aborting state or
`mpsAborted`; in every other engine state a set flag is still set. -/
theorem stop_pressed_sticky (opts : BuildOptions) (vars : marlin_vars_t)
    (bed_preheat : BedPreheat) (scr : screen_printing_data_t)
    (h : vars.print_state ≠ marlin_print_state_t.mpsPowerPanic_acFault) :
    ∃ scr', scr.change_print_state opts vars bed_preheat = some scr' ∧
      (scr'.stop_pressed = true ↔
        scr.stop_pressed = true ∧
        vars.print_state ∉
          [marlin_print_state_t.mpsResuming_Reheating,
           marlin_print_state_t.mpsResuming_Begin,
           marlin_print_state_t.mpsResuming_UnparkHead_XY,
           marlin_print_state_t.mpsResuming_UnparkHead_ZE,
           marlin_print_state_t.mpsCrashRecovery_Begin,
           marlin_print_state_t.mpsCrashRecovery_Retracting,
           marlin_print_state_t.mpsCrashRecovery_Lifting,
           marlin_print_state_t.mpsCrashRecovery_XY_Measure,
           marlin_print_state_t.mpsCrashRecovery_Tool_Pickup,
           marlin_print_state_t.mpsCrashRecovery_XY_HOME,
           marlin_print_state_t.mpsCrashRecovery_Axis_NOK,
           marlin_print_state_t.mpsCrashRecovery_Repeated_Crash,
           marlin_print_state_t.mpsPowerPanic_Resume,
           marlin_print_state_t.mpsAborting_Begin,
           marlin_print_state_t.mpsAborting_WaitIdle,
           marlin_print_state_t.mpsAborting_ParkHead,
           marlin_print_state_t.mpsAborted]) := by
  rcases vars with ⟨ps, media⟩
  have key := fun st0 s => (publish_state_frame media st0 s).2
  cases ps <;> first
    | exact absurd rfl h
    | (simp only [screen_printing_data_t.change_print_state,
        screen_printing_data_t.print_state_switch]
       (try split_ifs) <;>
        (refine ⟨_, rfl, ?_⟩
         rw [key]
         simp [screen_printing_data_t.emit]))

/-- The theorem of C7 at a screen with a stop request while the engine is
paused: the request is still set after the call. -/
theorem stop_pressed_sticky_witness :
    (marlin_print_state_t.mpsPaused ≠ marlin_print_state_t.mpsPowerPanic_acFault) ∧
    (stopRequestedScreen.change_print_state buildILI9488
        { print_state := marlin_print_state_t.mpsPaused, media_inserted := true }
        idlePreheat).map (fun s => s.stop_pressed) = some true := by
  obtain ⟨scr', h1, h2⟩ := stop_pressed_sticky buildILI9488
    { print_state := marlin_print_state_t.mpsPaused, media_inserted := true }
    idlePreheat stopRequestedScreen (by decide)
  refine ⟨by decide, ?_⟩
  rw [h1]
  simp only [Option.map_some']
  congr 1
  exact h2.2 ⟨rfl, by decide⟩

/-- C7 as stated fails: with a stop request set, the call clears the flag
when the engine is resuming, reheating or recovering from a crash, which the
claim counts among the states that keep it. -/
theorem stop_pressed_cleared_when_resuming :
    stopRequestedScreen.stop_pressed = true ∧
    (stopRequestedScreen.change_print_state buildILI9488
        { print_state := marlin_print_state_t.mpsResuming_Begin, media_inserted := true }
        idlePreheat).map (fun s => s.stop_pressed) = some false ∧
    (stopRequestedScreen.change_print_state buildILI9488
        { print_state := marlin_print_state_t.mpsResuming_Reheating, media_inserted := true }
        idlePreheat).map (fun s => s.stop_pressed) = some false ∧
    (stopRequestedScreen.change_print_state buildILI9488
        { print_state := marlin_print_state_t.mpsCrashRecovery_Begin,
          media_inserted := true }
        idlePreheat).map (fun s => s.stop_pressed) = some false := by
  decide

/-! ### The button projections -/

/-- C9: recomputing a button is idempotent.  For every screen (print state,
prior label, icon, shadow and enabled flags of the buttons, focus) and
media-inserted flag, running `set_pause_icon_and_label`,
`set_tune_icon_and_label` or `set_stop_icon_and_label` twice in a row leaves
the screen that running it once leaves. -/
theorem button_recomputation_idempotent (media_inserted : Bool)
    (scr : screen_printing_data_t) :
    (scr.set_pause_icon_and_label media_inserted).set_pause_icon_and_label media_inserted
      = scr.set_pause_icon_and_label media_inserted ∧
    scr.set_tune_icon_and_label.set_tune_icon_and_label = scr.set_tune_icon_and_label ∧
    scr.set_stop_icon_and_label.set_stop_icon_and_label = scr.set_stop_icon_and_label := by
  rcases scr with ⟨stop, wfa, st, ⟨⟨tr, tsh, ten, tinv⟩, ⟨tt⟩⟩, ⟨⟨pr, psh, pen, pinv⟩, ⟨pt⟩⟩,
    ⟨⟨sr, ssh, sen, sinv⟩, ⟨stt⟩⟩, foc, eff⟩
  refine ⟨?_, ?_, ?_⟩
  · cases st <;> cases psh <;> cases media_inserted <;> rfl
  · rcases foc with _ | b
    · cases st <;> cases tsh <;> rfl
    · cases b <;> cases st <;> cases tsh <;> cases pen <;> rfl
  · cases st <;> cases ssh <;> rfl

theorem enable_button_affordance (b : Button) :
    (screen_printing_data_t.enable_button b).affordance
      = { b.affordance with shadowed := false } := by
  rcases b with ⟨⟨r, sh, en, inv⟩, ⟨t⟩⟩
  cases sh <;> rfl

theorem disable_button_affordance (b : Button) :
    (screen_printing_data_t.disable_button b).affordance
      = { b.affordance with shadowed := true } := by
  rcases b with ⟨⟨r, sh, en, inv⟩, ⟨t⟩⟩
  cases sh <;> rfl

theorem set_icon_and_label_affordance (id : item_id_t) (b : Button) :
    (screen_printing_data_t.set_icon_and_label id b).affordance
      = { label := (btn_res id).1, icon := (btn_res id).2,
          shadowed := b.affordance.shadowed } := rfl

/-- The pause projection after `set_pause_icon_and_label` is determined by the
state, by the media flag in PAUSED, and by the previous label and icon in
ABORTING. -/
theorem set_pause_affordance_congr (m1 m2 : Bool) (a b : screen_printing_data_t)
    (hst : a.GetState = b.GetState)
    (hm : a.GetState = printing_state_t.PAUSED → m1 = m2)
    (hp : a.GetState = printing_state_t.ABORTING →
      a.btn_pause.affordance.label = b.btn_pause.affordance.label ∧
      a.btn_pause.affordance.icon = b.btn_pause.affordance.icon) :
    (a.set_pause_icon_and_label m1).btn_pause.affordance
      = (b.set_pause_icon_and_label m2).btn_pause.affordance := by
  unfold screen_printing_data_t.set_pause_icon_and_label
  rw [← hst]
  cases hs : a.GetState <;>
    simp_all [enable_button_affordance, disable_button_affordance,
      set_icon_and_label_affordance, apply_ite Button.affordance]

theorem enable_tune_button_affordance (s : screen_printing_data_t) :
    s.enable_tune_button.btn_tune.affordance
      = { s.btn_tune.affordance with shadowed := false } := rfl

theorem disable_tune_button_affordance (s : screen_printing_data_t) :
    s.disable_tune_button.btn_tune.affordance
      = { s.btn_tune.affordance with shadowed := true } := by
  simp only [screen_printing_data_t.disable_tune_button,
    screen_printing_data_t.pause_SetFocus]
  split_ifs <;> rfl

/-- The tune projection after `set_tune_icon_and_label` is determined by the
state. -/
theorem set_tune_affordance_congr (a b : screen_printing_data_t)
    (hst : a.GetState = b.GetState) :
    a.set_tune_icon_and_label.btn_tune.affordance
      = b.set_tune_icon_and_label.btn_tune.affordance := by
  unfold screen_printing_data_t.set_tune_icon_and_label
  simp only [screen_printing_data_t.GetState] at hst ⊢
  rw [← hst]
  cases hs : a.state__readonly__use_change_print_state <;>
    simp [enable_tune_button_affordance, disable_tune_button_affordance,
      disable_button_affordance, set_icon_and_label_affordance]

/-- The stop projection after `set_stop_icon_and_label` is determined by the
state, and by the previous label and icon in ABORTING. -/
theorem set_stop_affordance_congr (a b : screen_printing_data_t)
    (hst : a.GetState = b.GetState)
    (hp : a.GetState = printing_state_t.ABORTING →
      a.btn_stop.affordance.label = b.btn_stop.affordance.label ∧
      a.btn_stop.affordance.icon = b.btn_stop.affordance.icon) :
    a.set_stop_icon_and_label.btn_stop.affordance
      = b.set_stop_icon_and_label.btn_stop.affordance := by
  unfold screen_printing_data_t.set_stop_icon_and_label
  rw [← hst]
  cases hs : a.GetState <;>
    simp_all [enable_button_affordance, disable_button_affordance,
      set_icon_and_label_affordance]

/-- The switch leaves the published state and the buttons alone. -/
theorem print_state_switch_frame (opts : BuildOptions) (ps : marlin_print_state_t)
    (w : Bool) (scr s1 : screen_printing_data_t) (st0 : printing_state_t)
    (h : scr.print_state_switch opts ps w = some (st0, s1)) :
    s1.GetState = scr.GetState ∧ s1.btn_pause = scr.btn_pause ∧
    s1.btn_tune = scr.btn_tune ∧ s1.btn_stop = scr.btn_stop := by
  cases ps <;> simp only [screen_printing_data_t.print_state_switch] at h <;>
    (try split_ifs at h) <;>
    simp only [Option.some.injEq, Prod.mk.injEq, reduceCtorEq] at h <;>
    (obtain ⟨_, rfl⟩ := h) <;>
    exact ⟨rfl, rfl, rfl, rfl⟩

/-- When the state changes, the projections after the statements that follow
the switch are those of the three button functions run on the new state. -/
theorem publish_state_affordances (m : Bool) (st0 : printing_state_t)
    (scr : screen_printing_data_t)
    (hc : scr.GetState ≠ (scr.publish_state m st0).GetState) :
    (scr.publish_state m st0).affordances
      = (screen_printing_data_t.set_stop_icon_and_label
          (screen_printing_data_t.set_tune_icon_and_label
            (screen_printing_data_t.set_pause_icon_and_label m
              { scr with state__readonly__use_change_print_state
                  := (scr.publish_state m st0).GetState }))).affordances := by
  rw [(publish_state_frame m st0 scr).1] at hc ⊢
  unfold screen_printing_data_t.publish_state
  simp only [screen_printing_data_t.GetState] at hc
  simp only [ne_eq, hc, not_false_eq_true, if_true]
  split_ifs <;> rfl

/-- C8 (amended): when `change_print_state` publishes a state that differs
from the last-published one, the three button projections (label, icon and
shadowed flag of the pause, tune and stop button) are a function of the new
state, of the media-inserted flag when the new state is PAUSED, and of the
previous label and icon of the pause and stop buttons when the new state is
ABORTING: two screens that end in the same published state, with the same
media-inserted flag if that state is PAUSED and the same previous pause and
stop labels and icons if it is ABORTING, have equal projections after the
call, whatever their previous shadowing and their other previous labels. -/
theorem affordances_function_of_new_state (opts : BuildOptions)
    (vars1 vars2 : marlin_vars_t) (bed_preheat1 bed_preheat2 : BedPreheat)
    (scr1 scr2 scr1' scr2' : screen_printing_data_t)
    (h1 : scr1.change_print_state opts vars1 bed_preheat1 = some scr1')
    (h2 : scr2.change_print_state opts vars2 bed_preheat2 = some scr2')
    (hc1 : scr1.GetState ≠ scr1'.GetState) (hc2 : scr2.GetState ≠ scr2'.GetState)
    (heq : scr1'.GetState = scr2'.GetState)
    (hm : scr1'.GetState = printing_state_t.PAUSED →
      vars1.media_inserted = vars2.media_inserted)
    (hp : scr1'.GetState = printing_state_t.ABORTING →
      scr1.btn_pause.affordance.label = scr2.btn_pause.affordance.label ∧
      scr1.btn_pause.affordance.icon = scr2.btn_pause.affordance.icon ∧
      scr1.btn_stop.affordance.label = scr2.btn_stop.affordance.label ∧
      scr1.btn_stop.affordance.icon = scr2.btn_stop.affordance.icon) :
    scr1'.affordances = scr2'.affordances := by
  unfold screen_printing_data_t.change_print_state at h1 h2
  cases hs1 : scr1.print_state_switch opts vars1.print_state bed_preheat1.is_waiting with
  | none => rw [hs1] at h1; simp at h1
  | some r1 =>
    cases hs2 : scr2.print_state_switch opts vars2.print_state bed_preheat2.is_waiting with
    | none => rw [hs2] at h2; simp at h2
    | some r2 =>
      rcases r1 with ⟨a0, s1⟩
      rcases r2 with ⟨b0, s2⟩
      rw [hs1] at h1
      rw [hs2] at h2
      simp only [Option.some.injEq] at h1 h2
      subst h1
      subst h2
      obtain ⟨f1s, f1p, f1t, f1b⟩ := print_state_switch_frame _ _ _ _ _ _ hs1
      obtain ⟨f2s, f2p, f2t, f2b⟩ := print_state_switch_frame _ _ _ _ _ _ hs2
      rw [← f1s] at hc1
      rw [← f2s] at hc2
      rw [publish_state_affordances _ _ _ hc1, publish_state_affordances _ _ _ hc2]
      rw [← f1p, ← f1b, ← f2p, ← f2b] at hp
      generalize (s1.publish_state vars1.media_inserted a0).GetState = st at heq hm hp ⊢
      subst heq
      simp only [screen_printing_data_t.affordances, Prod.mk.injEq]
      refine ⟨?_, ?_, ?_⟩
      · rw [(set_stop_icon_and_label_frame _).2.2.1, (set_tune_icon_and_label_frame _).2.2.1,
          (set_stop_icon_and_label_frame _).2.2.1, (set_tune_icon_and_label_frame _).2.2.1]
        exact set_pause_affordance_congr _ _ _ _ rfl hm (fun h => ⟨(hp h).1, (hp h).2.1⟩)
      · rw [(set_stop_icon_and_label_frame _).2.2.2.1,
          (set_stop_icon_and_label_frame _).2.2.2.1]
        apply set_tune_affordance_congr
        rw [(set_pause_icon_and_label_frame _ _).1, (set_pause_icon_and_label_frame _ _).1]
        rfl
      · apply set_stop_affordance_congr
        · rw [(set_tune_icon_and_label_frame _).1, (set_tune_icon_and_label_frame _).1,
            (set_pause_icon_and_label_frame _ _).1, (set_pause_icon_and_label_frame _ _).1]
          rfl
        · intro h
          rw [(set_tune_icon_and_label_frame _).1, (set_pause_icon_and_label_frame _ _).1] at h
          rw [(set_tune_icon_and_label_frame _).2.2.2, (set_tune_icon_and_label_frame _).2.2.2,
            (set_pause_icon_and_label_frame _ _).2.2.2.1,
            (set_pause_icon_and_label_frame _ _).2.2.2.1]
          exact ⟨(hp h).2.2.1, (hp h).2.2.2⟩

/-- The theorem of C8 at the printing screen and at a new screen, both seeing
the engine paused with the media inserted: equal projections. -/
theorem affordances_function_of_new_state_witness :
    printingScreen.GetState ≠ pausedScreen.GetState ∧
    newScreen.GetState ≠ pausedFromNewScreen.GetState ∧
    pausedScreen.GetState = pausedFromNewScreen.GetState ∧
    pausedScreen.affordances = pausedFromNewScreen.affordances :=
  ⟨by decide, by decide, by decide,
   affordances_function_of_new_state buildILI9488
     { print_state := marlin_print_state_t.mpsPaused, media_inserted := true }
     { print_state := marlin_print_state_t.mpsPaused, media_inserted := true }
     idlePreheat idlePreheat printingScreen newScreen pausedScreen pausedFromNewScreen
     (by decide) (by decide) (by decide) (by decide) (by decide) (fun _ => rfl)
     (fun h => absurd h (by decide))⟩

/-- C8 as stated fails.  Two screens that both go from PRINTING to PAUSED, one
with and one without media inserted, differ in the pause projection; and the
printing screen and the paused screen, both going to ABORTING, keep their
different pause labels. -/
theorem affordances_not_function_of_state_alone :
    (printingScreen.GetState ≠ printing_state_t.PAUSED ∧
      (printingScreen.change_print_state buildILI9488
          { print_state := marlin_print_state_t.mpsPaused, media_inserted := true }
          idlePreheat).map screen_printing_data_t.GetState
        = some printing_state_t.PAUSED ∧
      (printingScreen.change_print_state buildILI9488
          { print_state := marlin_print_state_t.mpsPaused, media_inserted := false }
          idlePreheat).map screen_printing_data_t.GetState
        = some printing_state_t.PAUSED ∧
      (printingScreen.change_print_state buildILI9488
          { print_state := marlin_print_state_t.mpsPaused, media_inserted := true }
          idlePreheat).map screen_printing_data_t.affordances
        ≠ (printingScreen.change_print_state buildILI9488
          { print_state := marlin_print_state_t.mpsPaused, media_inserted := false }
          idlePreheat).map screen_printing_data_t.affordances) ∧
    (printingScreen.GetState ≠ printing_state_t.ABORTING ∧
      pausedScreen.GetState ≠ printing_state_t.ABORTING ∧
      (printingScreen.change_print_state buildILI9488
          { print_state := marlin_print_state_t.mpsAborting_Begin, media_inserted := true }
          idlePreheat).map screen_printing_data_t.GetState
        = some printing_state_t.ABORTING ∧
      (pausedScreen.change_print_state buildILI9488
          { print_state := marlin_print_state_t.mpsAborting_Begin, media_inserted := true }
          idlePreheat).map screen_printing_data_t.GetState
        = some printing_state_t.ABORTING ∧
      (printingScreen.change_print_state buildILI9488
          { print_state := marlin_print_state_t.mpsAborting_Begin, media_inserted := true }
          idlePreheat).map screen_printing_data_t.affordances
        ≠ (pausedScreen.change_print_state buildILI9488
          { print_state := marlin_print_state_t.mpsAborting_Begin, media_inserted := true }
          idlePreheat).map screen_printing_data_t.affordances) := by
  decide

/-! ## Theorems: enable-state update -/

/-- C12: `is_enable_state_update_processing()` reports an update that was
requested and is not yet processed.  For every value of the two flags it is
true iff `enable_state_update_pending` or `enable_state_update_processing` is
set; it is false when both are clear, whatever the other members, and so on
a freshly constructed facade. -/
theorem is_enable_state_update_processing_iff (fs : FilamentSensors) :
    (fs.is_enable_state_update_processing = true ↔
      fs.enable_state_update_pending = true ∨ fs.enable_state_update_processing = true) ∧
    (fs.is_enable_state_update_processing = false ↔
      fs.enable_state_update_pending = false ∧ fs.enable_state_update_processing = false) ∧
    ({ fs with enable_state_update_pending := false,
               enable_state_update_processing := false }
        : FilamentSensors).is_enable_state_update_processing = false ∧
    unlockedFacade.enable_state_update_pending = false ∧
    unlockedFacade.enable_state_update_processing = false ∧
    unlockedFacade.is_enable_state_update_processing = false := by
  refine ⟨?_, ?_, rfl, rfl, rfl, rfl⟩
  · simp [FilamentSensors.is_enable_state_update_processing]
  · simp [FilamentSensors.is_enable_state_update_processing]

/-! ## Theorems: bed preheat -/

/-- C15: after `skip_preheat()` `can_skip()` is false; the call sets
`preheated` exactly when `can_preheat` is true and otherwise changes nothing;
it never changes `can_preheat`, `waiting`, `heating_start_time` or the bedlet
mask; and calling it twice is the same as calling it once. -/
theorem skip_preheat_effect (b : BedPreheat) :
    b.skip_preheat.can_skip = false ∧
    (b.can_preheat = true → b.skip_preheat = { b with preheated := true }) ∧
    (b.can_preheat = false → b.skip_preheat = b) ∧
    (b.skip_preheat.preheated = true ↔ b.can_preheat = true ∨ b.preheated = true) ∧
    b.skip_preheat.can_preheat = b.can_preheat ∧
    b.skip_preheat.waiting = b.waiting ∧
    b.skip_preheat.heating_start_time = b.heating_start_time ∧
    b.skip_preheat.last_enabled_bedlets = b.last_enabled_bedlets ∧
    b.skip_preheat.skip_preheat = b.skip_preheat := by
  rcases b with ⟨t, c, p, w, l⟩
  cases c <;> cases p <;> simp [BedPreheat.skip_preheat, BedPreheat.can_skip]

/-- The theorem of C15 at a state that is absorbing heat and at a state where
preheating is not possible. -/
theorem skip_preheat_effect_witness :
    (heatingPreheat.can_preheat = true ∧
      heatingPreheat.skip_preheat = { heatingPreheat with preheated := true }) ∧
    (idlePreheat.can_preheat = false ∧ idlePreheat.skip_preheat = idlePreheat) :=
  ⟨⟨rfl, (skip_preheat_effect heatingPreheat).2.1 rfl⟩,
   ⟨rfl, (skip_preheat_effect idlePreheat).2.2.1 rfl⟩⟩

theorem update_consistent (MH : Bool) (r : Readings) (b : BedPreheat) :
    (b.update MH r).consistent := by
  rcases b with ⟨t, c, p, w, l⟩
  unfold BedPreheat.update BedPreheat.consistent
  cases t <;> simp only <;> split_ifs <;> simp_all

theorem skip_preheat_consistent (b : BedPreheat) (h : b.consistent) :
    b.skip_preheat.consistent := by
  rcases b with ⟨t, c, p, w, l⟩
  cases c <;> simp_all [BedPreheat.skip_preheat, BedPreheat.consistent]

theorem perform_consistent (MH : Bool) (c : PreheatCall) (b : BedPreheat)
    (h : b.consistent) : (c.perform MH b).consistent := by
  cases c with
  | update r => exact update_consistent MH r b
  | skip_preheat => exact skip_preheat_consistent b h

theorem foldl_perform_consistent (MH : Bool) (calls : List PreheatCall) :
    ∀ b : BedPreheat, b.consistent →
      (calls.foldl (fun s c => c.perform MH s) b).consistent := by
  induction calls with
  | nil => intro b h; exact h
  | cons c cs ih => intro b h; exact ih _ (perform_consistent MH c b h)

/-- C16: the state invariant of `BedPreheat`.  After every `update()`,
whatever the readings and the state before, `preheated` implies `can_preheat`
and `can_preheat` holds exactly when `heating_start_time` has a value;
`skip_preheat()` preserves this; so it holds after any sequence of `update()`
and `skip_preheat()` calls that follows an `update()` or starts in a state
where it holds, and there the bed is not marked preheated while preheating is
not possible. -/
theorem preheat_state_consistent (MH : Bool) (r : Readings) (b : BedPreheat)
    (calls : List PreheatCall) :
    ((b.update MH r).preheated = true → (b.update MH r).can_preheat = true) ∧
    ((b.update MH r).can_preheat = true ↔ (b.update MH r).heating_start_time.isSome = true) ∧
    (b.consistent → b.skip_preheat.consistent) ∧
    (calls.foldl (fun s c => c.perform MH s) (b.update MH r)).consistent ∧
    (b.consistent → (calls.foldl (fun s c => c.perform MH s) b).consistent) ∧
    (b.consistent →
      ¬ ((calls.foldl (fun s c => c.perform MH s) b).preheated = true ∧
         (calls.foldl (fun s c => c.perform MH s) b).can_preheat = false)) := by
  refine ⟨(update_consistent MH r b).1, (update_consistent MH r b).2,
    skip_preheat_consistent b, foldl_perform_consistent MH calls _ (update_consistent MH r b),
    foldl_perform_consistent MH calls b, ?_⟩
  intro h hc
  have := (foldl_perform_consistent MH calls b h).1 hc.1
  rw [hc.2] at this
  exact absurd this (by decide)

/-- The theorem of C16 from the state before any heating: a skip request, an
update near the target and another skip request leave a consistent state. -/
theorem preheat_state_consistent_witness :
    idlePreheat.consistent ∧
    ([PreheatCall.skip_preheat, PreheatCall.update readingsAt60,
        PreheatCall.skip_preheat].foldl
      (fun s c => c.perform false s) idlePreheat).consistent :=
  ⟨by decide,
   (preheat_state_consistent false readingsAt60 idlePreheat
      [PreheatCall.skip_preheat, PreheatCall.update readingsAt60,
        PreheatCall.skip_preheat]).2.2.2.2.1 (by decide)⟩

/-! ### Preheat times -/

/-- The required time for a target in the `int16_t` range, in closed form. -/
theorem required_preheat_time_eq (r : Readings)
    (hr : -32768 ≤ r.degTargetBed ∧ r.degTargetBed ≤ 32767) :
    (BedPreheat.required_preheat_time r : Int)
      = if r.degTargetBed < 60 then 0 else (180 + (r.degTargetBed - 60) * 14) * 1000 := by
  have h14 : (12 * 60 / 50 : Int) = 14 := by decide
  unfold BedPreheat.required_preheat_time minimal_preheat_temp
  rw [h14]
  by_cases h1 : r.degTargetBed < 60
  · simp [h1]
  · have hv : toInt32 ((180 + (r.degTargetBed - 60) * 14) * 1000)
        = (180 + (r.degTargetBed - 60) * 14) * 1000 := by
      unfold toInt32
      omega
    have hpos : (180 + (r.degTargetBed - 60) * 14) * 1000 > 0 := by omega
    simp only [h1, if_false, hv, hpos, if_true]
    unfold toUInt32
    omega

/-- C18: `required_preheat_time` for a bed target `t` in the `int16_t` range.
It is 0 when `t < 60`; otherwise it is `(180 + (t - 60) * 14) * 1000`
milliseconds, where 14 is the integer quotient `12 * 60 / 50` and the value
fits the `int32_t` it is computed in; hence it is at least 180000 for
`t >= 60`, and it does not decrease when `t` grows. -/
theorem required_preheat_time_value (r r' : Readings)
    (hr : -32768 ≤ r.degTargetBed ∧ r.degTargetBed ≤ 32767)
    (hr' : -32768 ≤ r'.degTargetBed ∧ r'.degTargetBed ≤ 32767) :
    (r.degTargetBed < 60 → BedPreheat.required_preheat_time r = 0) ∧
    (60 ≤ r.degTargetBed →
      (BedPreheat.required_preheat_time r : Int)
        = (180 + (r.degTargetBed - 60) * 14) * 1000 ∧
      toInt32 ((180 + (r.degTargetBed - 60) * (12 * 60 / 50)) * 1000)
        = (180 + (r.degTargetBed - 60) * 14) * 1000 ∧
      (180 + (r.degTargetBed - 60) * 14) * 1000 < 2147483648 ∧
      180000 ≤ BedPreheat.required_preheat_time r) ∧
    ((12 * 60 / 50 : Int) = 14) ∧
    (r.degTargetBed ≤ r'.degTargetBed →
      BedPreheat.required_preheat_time r ≤ BedPreheat.required_preheat_time r') := by
  have e := required_preheat_time_eq r hr
  have e' := required_preheat_time_eq r' hr'
  have h14 : (12 * 60 / 50 : Int) = 14 := by decide
  refine ⟨?_, ?_, h14, ?_⟩
  · intro h
    rw [if_pos h] at e
    exact_mod_cast e
  · intro h
    rw [if_neg (by omega)] at e
    refine ⟨e, ?_, by omega, by omega⟩
    rw [h14]
    unfold toInt32
    omega
  · intro h
    split_ifs at e e' <;> omega

/-- The theorem of C18 at targets of 60 and 100 degrees: 180 s and 740 s. -/
theorem required_preheat_time_value_witness :
    BedPreheat.required_preheat_time readingsAt60 = 180000 ∧
    BedPreheat.required_preheat_time readingsAt100 = 740000 ∧
    BedPreheat.required_preheat_time readingsAt60
      ≤ BedPreheat.required_preheat_time readingsAt100 := by
  have h := required_preheat_time_value readingsAt60 readingsAt100
    (by decide) (by decide)
  have h' := required_preheat_time_value readingsAt100 readingsAt100
    (by decide) (by decide)
  have a := (h.2.1 (by decide)).1
  have b := (h'.2.1 (by decide)).1
  refine ⟨?_, ?_, h.2.2.2 (by decide)⟩
  · have : ((180 + (readingsAt60.degTargetBed - 60) * 14) * 1000 : Int) = 180000 := by decide
    rw [this] at a
    exact_mod_cast a
  · have : ((180 + (readingsAt100.degTargetBed - 60) * 14) * 1000 : Int) = 740000 := by decide
    rw [this] at b
    exact_mod_cast b

/-- The required time for a target in the `int16_t` range fits an `int32_t`
with room to spare. -/
theorem required_preheat_time_le (r : Readings)
    (hr : -32768 ≤ r.degTargetBed ∧ r.degTargetBed ≤ 32767) :
    BedPreheat.required_preheat_time r ≤ 458078000 := by
  have e := required_preheat_time_eq r hr
  split_ifs at e <;> omega

/-- The countdown in closed form, for an elapsed time below `2^31` ms. -/
theorem remaining_preheat_time_eq (r : Readings) (b : BedPreheat) (start : Nat)
    (hr : -32768 ≤ r.degTargetBed ∧ r.degTargetBed ≤ 32767)
    (hs : b.heating_start_time = some start)
    (he : BedPreheat.elapsed_ms r start < 2147483648) :
    BedPreheat.remaining_preheat_time r b
      = BedPreheat.required_preheat_time r - BedPreheat.elapsed_ms r start := by
  have hle := required_preheat_time_le r hr
  have hE : toUInt32 ((r.millis : Int) - (start : Int)) = BedPreheat.elapsed_ms r start := rfl
  unfold BedPreheat.remaining_preheat_time
  simp only [hs, Option.isSome_some, Option.getD_some, hE, Bool.and_true]
  generalize BedPreheat.required_preheat_time r = R at hle ⊢
  generalize BedPreheat.elapsed_ms r start = E at he ⊢
  have h1 : toInt32 (R : Int) = R := by unfold toInt32; omega
  have h2 : toInt32 (E : Int) = E := by unfold toInt32; omega
  have h3 : toInt32 ((R : Int) - E) = R - E := by unfold toInt32; omega
  simp only [h1, h2, h3]
  unfold toUInt32
  split_ifs <;> simp_all <;> omega

/-- C17: `remaining_preheat_time` is a clamped countdown.  It is 0 when no
`heating_start_time` is recorded or `required_preheat_time()` is 0; otherwise,
for a target in the `int16_t` range and provided the elapsed time
(`millis() - start` modulo `2^32`) is below `2^31` ms, it is
`max(0, required - elapsed)`, so it never exceeds the required time, is 0
exactly when `elapsed >= required`, and does not increase when the elapsed
time grows. -/
theorem remaining_preheat_time_countdown (r r' : Readings) (b : BedPreheat) (start : Nat)
    (hr : -32768 ≤ r.degTargetBed ∧ r.degTargetBed ≤ 32767) :
    (b.heating_start_time = none → BedPreheat.remaining_preheat_time r b = 0) ∧
    (BedPreheat.required_preheat_time r = 0 → BedPreheat.remaining_preheat_time r b = 0) ∧
    (b.heating_start_time = some start → BedPreheat.required_preheat_time r ≠ 0 →
      BedPreheat.elapsed_ms r start < 2147483648 →
      (BedPreheat.remaining_preheat_time r b : Int)
          = max 0 ((BedPreheat.required_preheat_time r : Int)
                    - (BedPreheat.elapsed_ms r start : Int)) ∧
      BedPreheat.remaining_preheat_time r b ≤ BedPreheat.required_preheat_time r ∧
      (BedPreheat.remaining_preheat_time r b = 0 ↔
        BedPreheat.required_preheat_time r ≤ BedPreheat.elapsed_ms r start) ∧
      (r'.degTargetBed = r.degTargetBed →
        BedPreheat.elapsed_ms r start ≤ BedPreheat.elapsed_ms r' start →
        BedPreheat.elapsed_ms r' start < 2147483648 →
        BedPreheat.remaining_preheat_time r' b ≤ BedPreheat.remaining_preheat_time r b)) := by
  refine ⟨?_, ?_, ?_⟩
  · intro h
    simp [BedPreheat.remaining_preheat_time, h]
  · intro h
    simp [BedPreheat.remaining_preheat_time, h, toInt32]
  · intro hs _ he
    have e := remaining_preheat_time_eq r b start hr hs he
    refine ⟨by omega, by omega, by omega, ?_⟩
    intro ht hle he'
    have e' := remaining_preheat_time_eq r' b start (by rw [ht]; exact hr) hs he'
    have hreq : BedPreheat.required_preheat_time r' = BedPreheat.required_preheat_time r := by
      simp only [BedPreheat.required_preheat_time, ht]
    omega

/-- The theorem of C17 at a state 10 s into absorbing heat for a target of
60 degrees: 170 s remain, and nothing remains 200 s later. -/
theorem remaining_preheat_time_countdown_witness :
    BedPreheat.remaining_preheat_time readingsAt60 heatingPreheat = 170000 ∧
    BedPreheat.remaining_preheat_time readingsAt60Later heatingPreheat
      ≤ BedPreheat.remaining_preheat_time readingsAt60 heatingPreheat := by
  have hreq : BedPreheat.required_preheat_time readingsAt60 = 180000 := by decide
  have hel : BedPreheat.elapsed_ms readingsAt60 5000 = 10000 := by decide
  have hel' : BedPreheat.elapsed_ms readingsAt60Later 5000 = 210000 := by decide
  have h := (remaining_preheat_time_countdown readingsAt60 readingsAt60Later heatingPreheat
    5000 (by decide)).2.2 rfl (by rw [hreq]; decide) (by rw [hel]; decide)
  refine ⟨?_, h.2.2.2 rfl (by rw [hel, hel']; decide) (by rw [hel']; decide)⟩
  have := h.1
  rw [hreq, hel] at this
  omega

/-! ### The poll loop -/

/-- C13: a stop request that is still set overrides the engine state.  Over
the engine states the call can receive (all but `mpsPowerPanic_acFault`,
whose case the source marks as never reached with `__builtin_unreachable()`):
if `stop_pressed` is true on entry and the engine state is none of
`mpsResuming_Reheating`, the resuming, crash-recovery and
`mpsPowerPanic_Resume` states, the aborting states or `mpsAborted`, then
`change_print_state` returns, the published state is ABORTING whatever the
engine state and `is_waiting()` are, and `stop_pressed` is still true; if
`stop_pressed` is false on entry the published state depends on the engine
state and `is_waiting()` only. -/
theorem stop_request_overrides (opts opts' : BuildOptions) (vars vars' : marlin_vars_t)
    (bed_preheat bed_preheat' : BedPreheat) (scr scr' : screen_printing_data_t) :
    (scr.stop_pressed = true →
      vars.print_state ∉
        [marlin_print_state_t.mpsResuming_Reheating,
         marlin_print_state_t.mpsResuming_Begin,
         marlin_print_state_t.mpsResuming_UnparkHead_XY,
         marlin_print_state_t.mpsResuming_UnparkHead_ZE,
         marlin_print_state_t.mpsCrashRecovery_Begin,
         marlin_print_state_t.mpsCrashRecovery_Retracting,
         marlin_print_state_t.mpsCrashRecovery_Lifting,
         marlin_print_state_t.mpsCrashRecovery_XY_Measure,
         marlin_print_state_t.mpsCrashRecovery_Tool_Pickup,
         marlin_print_state_t.mpsCrashRecovery_XY_HOME,
         marlin_print_state_t.mpsCrashRecovery_Axis_NOK,
         marlin_print_state_t.mpsCrashRecovery_Repeated_Crash,
         marlin_print_state_t.mpsPowerPanic_Resume,
         marlin_print_state_t.mpsAborting_Begin,
         marlin_print_state_t.mpsAborting_WaitIdle,
         marlin_print_state_t.mpsAborting_ParkHead,
         marlin_print_state_t.mpsAborted] →
      vars.print_state ≠ marlin_print_state_t.mpsPowerPanic_acFault →
      ∃ r, scr.change_print_state opts vars bed_preheat = some r ∧
        r.GetState = printing_state_t.ABORTING ∧ r.stop_pressed = true) ∧
    (scr.stop_pressed = false → scr'.stop_pressed = false →
      vars.print_state = vars'.print_state →
      bed_preheat.is_waiting = bed_preheat'.is_waiting →
      (scr.change_print_state opts vars bed_preheat).map screen_printing_data_t.GetState
        = (scr'.change_print_state opts' vars' bed_preheat').map
            screen_printing_data_t.GetState) := by
  rcases vars with ⟨ps, media⟩
  rcases vars' with ⟨ps', media'⟩
  constructor
  · intro hs hn ha
    simp only at hn ha
    have key := fun st0 s => publish_state_frame media st0 s
    cases ps <;> first
      | exact absurd rfl ha
      | exact absurd (by decide) hn
      | (simp only [screen_printing_data_t.change_print_state,
          screen_printing_data_t.print_state_switch]
         (try split_ifs) <;>
          (refine ⟨_, rfl, ?_⟩
           rw [(key _ _).1, (key _ _).2]
           simp [hs, screen_printing_data_t.emit]))
  · intro hs hs' hp hw
    simp only at hp
    subst hp
    have key := fun st0 s => (publish_state_frame media st0 s).1
    have key' := fun st0 s => (publish_state_frame media' st0 s).1
    cases hwv : bed_preheat'.is_waiting <;> rw [hwv] at hw <;> cases ps <;>
      simp [screen_printing_data_t.change_print_state,
        screen_printing_data_t.print_state_switch, key, key', hw, hwv, hs, hs',
        screen_printing_data_t.emit, apply_ite screen_printing_data_t.stop_pressed]

/-- The theorem of C13 at a screen with a stop request while the engine is
still printing and the preheat collaborator is waiting: ABORTING is
published and the request stays. -/
theorem stop_request_overrides_witness :
    stopRequestedScreen.stop_pressed = true ∧
    ∃ r, stopRequestedScreen.change_print_state buildILI9488
        { print_state := marlin_print_state_t.mpsPrinting, media_inserted := true }
        waitingPreheat = some r ∧
      r.GetState = printing_state_t.ABORTING ∧ r.stop_pressed = true :=
  ⟨rfl,
   (stop_request_overrides buildILI9488 buildILI9488
      { print_state := marlin_print_state_t.mpsPrinting, media_inserted := true }
      { print_state := marlin_print_state_t.mpsPrinting, media_inserted := true }
      waitingPreheat waitingPreheat stopRequestedScreen stopRequestedScreen).1
     rfl (by decide) (by decide)⟩

/-- C14: after `set_pause_icon_and_label`, for every print state,
media-inserted flag and prior state of the button, the pause button is
disabled (shadowed) if and only if the state is PAUSING, RESUMING, REHEATING,
REHEATING_DONE or ABORTING, or the state is PAUSED and no media is inserted;
in REHEATING and REHEATING_DONE it carries the label "Heating..." with the
icon of the resume button, shadowed. -/
theorem pause_button_disabled_iff (media_inserted : Bool) (scr : screen_printing_data_t) :
    ((scr.set_pause_icon_and_label media_inserted).btn_pause.ico.IsShadowed = true ↔
      scr.GetState ∈
          [printing_state_t.PAUSING, printing_state_t.RESUMING, printing_state_t.REHEATING,
           printing_state_t.REHEATING_DONE, printing_state_t.ABORTING] ∨
        (scr.GetState = printing_state_t.PAUSED ∧ media_inserted = false)) ∧
    (scr.GetState = printing_state_t.REHEATING ∨
        scr.GetState = printing_state_t.REHEATING_DONE →
      (scr.set_pause_icon_and_label media_inserted).btn_pause.affordance
          = { label := "Heating...", icon := png.resume_48x48, shadowed := true } ∧
      (scr.set_pause_icon_and_label media_inserted).btn_pause.ico.res
          = (btn_res item_id_t.resume).2) := by
  rcases scr with ⟨stop, wfa, st, bt, ⟨⟨pr, psh, pen, pinv⟩, ⟨pt⟩⟩, bs, foc, eff⟩
  constructor
  · cases st <;> cases media_inserted <;> cases psh <;>
      simp [screen_printing_data_t.set_pause_icon_and_label, screen_printing_data_t.GetState,
        screen_printing_data_t.enable_button, screen_printing_data_t.disable_button,
        screen_printing_data_t.set_icon_and_label, window_icon_t.IsShadowed,
        window_icon_t.Shadow, window_icon_t.Unshadow, window_icon_t.Enable,
        window_icon_t.Disable, window_icon_t.Invalidate, window_icon_t.SetRes]
  · intro h
    simp only [screen_printing_data_t.GetState] at h
    rcases h with rfl | rfl <;> cases psh <;> exact ⟨rfl, rfl⟩

/-- The theorem of C14 at the screen that is reheating for a resume: the
pause button shows "Heating..." with the resume icon and is shadowed. -/
theorem pause_button_disabled_iff_witness :
    reheatingScreen.GetState = printing_state_t.REHEATING ∧
    (reheatingScreen.set_pause_icon_and_label true).btn_pause.affordance
      = { label := "Heating...", icon := png.resume_48x48, shadowed := true } :=
  ⟨by decide,
   ((pause_button_disabled_iff true reheatingScreen).2 (Or.inl (by decide))).1⟩

end Buddy
